import Mathlib

/-!
Shallow embedding of `src/main.py` (a procedural civilization simulator)
and verification of the frozen claims about it.

Conventions:
* Python floats are modelled as `ℚ` (all constants in the source are
  exactly representable, and the source performs only field arithmetic,
  comparisons, `min`/`max` and floor division on them).
* Grids (`heightmap`, `biome_map`) are modelled as total functions
  `Coord → ℚ` / `Coord → Color`; an in-place write `grid[y, x] = v`
  becomes `Function.update grid (x, y) v`.
* A coordinate is an `(x, y)` pair of integers, matching how the source
  stores territory/border points.
* Calls to the `random` module are modelled by explicit parameters /
  streams supplied to each operation, in the order the source draws them.
* Python exceptions (`QhullError` from `scipy.spatial.ConvexHull`,
  `ValueError` from `list.remove`) are modelled with `Except String`.
-/

abbrev Coord := ℤ × ℤ
abbrev Color := ℚ × ℚ × ℚ

/-- `WIDTH, HEIGHT = 256, 128` -/
def WIDTH : ℤ := 256
def HEIGHT : ℤ := 128

/-- `SLOW_GROWTH_THRESHOLD = 500` -/
def SLOW_GROWTH_THRESHOLD : ℚ := 500
/-- `SLOW_GROWTH_RATE = 0.02` -/
def SLOW_GROWTH_RATE : ℚ := 1/50
/-- `MAX_POPULATION = 10000000` -/
def MAX_POPULATION : ℚ := 10000000
/-- `METEOR_REVERT_TIME = 20` -/
def METEOR_REVERT_TIME : ℕ := 20
/-- `FIGHT_DISTANCE = 20` -/
def FIGHT_DISTANCE : ℚ := 20
/-- `FIGHT_DAMAGE = 0.1` -/
def FIGHT_DAMAGE : ℚ := 1/10
/-- `CITIZENS_PER_DOT = 10` -/
def CITIZENS_PER_DOT : ℚ := 10

/-! ## Biome generation (`generate_biome_map`, lines 38–51) -/

/-- The source's `colors` list:
`[(0, 0, 0.5), (0.9, 0.8, 0.5), (0.9, 0.7, 0.3), (0.1, 0.6, 0.2), (0.0, 0.4, 0.1)]`. -/
def biomeColors : List Color :=
  [(0, 0, 1/2), (9/10, 4/5, 1/2), (9/10, 7/10, 3/10), (1/10, 3/5, 1/5), (0, 2/5, 1/10)]

/-- The source's `thresholds` list: `[0.3, 0.35, 0.7, 0.5]`. -/
def biomeThresholds : List ℚ := [3/10, 7/20, 7/10, 1/2]

/-- The source's `for i, t in enumerate(thresholds): if h < t: … break / else: …`
loop: scan threshold/color pairs in order, first match wins, `fallback`
(= `colors[-1]`) when no threshold matches. -/
def firstMatchColor (h : ℚ) (fallback : Color) : List (ℚ × Color) → Color
  | [] => fallback
  | (t, c) :: rest => if h < t then c else firstMatchColor h fallback rest

/-- Classification of one cell of height `h`, from `generate_biome_map`'s
inner loop body (lines 44–50). -/
def classifyBiome (h : ℚ) : Color :=
  firstMatchColor h (biomeColors.getLastD (0, 0, 0)) (biomeThresholds.zip biomeColors)

/-- `generate_biome_map`: each cell of the grid gets the classification of
its height; no cell is written twice, so the grid is the pointwise map. -/
def generateBiomeMap (hm : Coord → ℚ) : Coord → Color :=
  fun p => classifyBiome (hm p)

lemma classifyBiome_eval (h : ℚ) :
    classifyBiome h =
      if h < 3/10 then (0, 0, 1/2)
      else if h < 7/20 then (9/10, 4/5, 1/2)
      else if h < 7/10 then (9/10, 7/10, 3/10)
      else if h < 1/2 then (1/10, 3/5, 1/5)
      else (0, 2/5, 1/10) := by
  simp only [classifyBiome, biomeThresholds, biomeColors, List.zip, List.zipWith,
    List.getLastD, firstMatchColor]
  split_ifs <;> rfl

/-- C1: in the beach band `[0.3, 0.35)` the classifier returns the beach
color (`colors[1]`), the result is one of the listed biome colors, and the
later thresholds `0.7` and `0.5` would also have matched (first match wins). -/
theorem biome_beach_first_match (hm : Coord → ℚ) (p : Coord)
    (h1 : 3/10 ≤ hm p) (h2 : hm p < 7/20) :
    generateBiomeMap hm p = (9/10, 4/5, 1/2) ∧
    generateBiomeMap hm p ∈ biomeColors ∧
    hm p < 7/10 ∧ hm p < 1/2 := by
  have e := classifyBiome_eval (hm p)
  have hn : ¬ hm p < 3/10 := not_lt.mpr h1
  refine ⟨?_, ?_, by linarith, by linarith⟩
  · simp only [generateBiomeMap, e, if_neg hn, if_pos h2]
  · simp only [generateBiomeMap, e, if_neg hn, if_pos h2, biomeColors]
    simp

/-- Witness for `biome_beach_first_match` at height 0.32. -/
theorem biome_beach_first_match_witness :
    generateBiomeMap (fun _ => 8/25) (0, 0) = (9/10, 4/5, 1/2) ∧
    generateBiomeMap (fun _ => 8/25) (0, 0) ∈ biomeColors ∧
    (8/25 : ℚ) < 7/10 ∧ (8/25 : ℚ) < 1/2 :=
  biome_beach_first_match (fun _ => 8/25) (0, 0) (by norm_num) (by norm_num)

/-- C10: the fourth color (`colors[3]`, guarded by threshold `0.5`) is
unreachable: every height below `0.5` already matched threshold `0.7`
earlier in the scan, so every cell receives one of the other four colors. -/
theorem biome_fourth_color_unreachable (hm : Coord → ℚ) (p : Coord) :
    generateBiomeMap hm p ≠ (1/10, 3/5, 1/5) ∧
    generateBiomeMap hm p ∈
      [((0 : ℚ), (0 : ℚ), (1/2 : ℚ)), (9/10, 4/5, 1/2), (9/10, 7/10, 3/10), (0, 2/5, 1/10)] := by
  have e := classifyBiome_eval (hm p)
  simp only [generateBiomeMap] at *
  rw [e]
  by_cases h0 : hm p < 3/10
  · simp only [if_pos h0]; norm_num
  by_cases h1 : hm p < 7/20
  · simp only [if_neg h0, if_pos h1]; norm_num
  by_cases h2 : hm p < 7/10
  · simp only [if_neg h0, if_neg h1, if_pos h2]; norm_num
  · have h3 : ¬ hm p < 1/2 := by
      intro hc; exact h2 (by linarith)
    simp only [if_neg h0, if_neg h1, if_neg h2, if_neg h3]; norm_num

/-! ## Civilizations (data model, lines 77–86) -/

/-- One civilization dict from `initialize_civilizations` (lines 77–86).
`color` is the RGB triple picked from the colormap; `border_color` is
`None` or the string `"red"`. -/
structure Civ where
  center : Coord
  population : ℚ
  tech : ℚ
  territory : List Coord
  border : List Coord
  color : Color
  border_color : Option String
  growth_rate : ℚ
deriving DecidableEq

instance : Inhabited Civ :=
  ⟨⟨(0, 0), 0, 0, [], [], (0, 0, 0), none, 0⟩⟩

instance {ε α : Type} [DecidableEq ε] [DecidableEq α] : DecidableEq (Except ε α)
  | Except.error a, Except.error b =>
    if h : a = b then isTrue (congrArg Except.error h)
    else isFalse (fun hc => h (Except.error.inj hc))
  | Except.error _, Except.ok _ => isFalse (fun hc => Except.noConfusion hc)
  | Except.ok _, Except.error _ => isFalse (fun hc => Except.noConfusion hc)
  | Except.ok a, Except.ok b =>
    if h : a = b then isTrue (congrArg Except.ok h)
    else isFalse (fun hc => h (Except.ok.inj hc))

/-! ## Convex hull (`scipy.spatial.ConvexHull`)

The source delegates hull computation to `scipy.spatial.ConvexHull`
(qhull).  Qhull raises `QhullError` when the input has fewer than 3
points or is less than 2-dimensional (all points coincident or
collinear); otherwise it returns the vertices of the convex hull (only
extreme points, no interior points of hull edges).  We model that
contract with an Andrew monotone-chain hull over exact integer
coordinates, wrapped in `Except`. -/

/-- Cross product of `a - o` and `b - o`. -/
def cross (o a b : Coord) : ℤ :=
  (a.1 - o.1) * (b.2 - o.2) - (a.2 - o.2) * (b.1 - o.1)

/-- Lexicographic order on coordinates used to sort hull input. -/
def coordLe (p q : Coord) : Bool :=
  decide (p.1 < q.1) || (decide (p.1 = q.1) && decide (p.2 ≤ q.2))

/-- Insert into a sorted list (kept structural so that concrete hulls
reduce inside the kernel). -/
def insertSorted (p : Coord) : List Coord → List Coord
  | [] => [p]
  | q :: rest => if coordLe p q then p :: q :: rest else q :: insertSorted p rest

/-- Insertion sort by `coordLe`. -/
def sortCoords : List Coord → List Coord
  | [] => []
  | p :: rest => insertSorted p (sortCoords rest)

/-- Monotone-chain step: pop non-left-turn points, then push `p`.
The accumulator holds the chain in reverse order. -/
def chainPush : List Coord → Coord → List Coord
  | a :: b :: rest, p =>
    if cross b a p ≤ 0 then chainPush (b :: rest) p else p :: a :: b :: rest
  | acc, p => p :: acc

/-- Model of `scipy.spatial.ConvexHull(points)` followed by reading off
`hull.vertices`: error on degenerate input, otherwise the extreme points
of the hull (as the list of vertex coordinates). -/
def ConvexHull (pts : List Coord) : Except String (List Coord) :=
  if pts.length < 3 then Except.error "QhullError"
  else
    match sortCoords pts.dedup with
    | p0 :: p1 :: rest =>
      if rest.all (fun q => cross p0 p1 q == 0) then Except.error "QhullError"
      else
        let sorted := p0 :: p1 :: rest
        let lower := sorted.foldl chainPush []
        let upper := sorted.reverse.foldl chainPush []
        Except.ok (lower.reverse.dropLast ++ upper.reverse.dropLast)
    | _ => Except.error "QhullError"

/-! ## Civilization placement (`initialize_civilizations`, lines 61–88) -/

/-- `generate_irregular_shape(center_x, center_y, size=10)` (lines 54–59):
`size * 2 = 20` points, each the center jittered by `randint(-10, 10)` in
both axes (the jitter values are supplied by the stream `jit`) and
clamped to the grid. -/
def generateIrregularShape (cx cy : ℤ) (jit : ℕ → ℤ × ℤ) : List Coord :=
  (List.range 20).map (fun k =>
    (max 0 (min (WIDTH - 1) (cx + (jit k).1)),
     max 0 (min (HEIGHT - 1) (cy + (jit k).2))))

/-- The `while True:` coordinate-sampling loop of `initialize_civilizations`
(lines 67–69), which exits only when the sampled coordinate is land
(`heightmap[y, x] >= 0.3`).  The source has no attempt bound at all; we
index unfoldings of the loop by explicit fuel so that divergence is the
statement that every finite unfolding fails to exit.  `rand k` is the
k-th sampled `(x, y)` pair. -/
def placeCivLoop (hm : Coord → ℚ) (rand : ℕ → Coord) : ℕ → ℕ → Option Coord
  | _, 0 => none
  | k, fuel + 1 =>
    let p := rand k
    if hm p ≥ 3/10 then some p else placeCivLoop hm rand (k + 1) fuel

/-- Body of `initialize_civilizations` after a successful placement
(lines 70–86): build the jittered territory, then call `ConvexHull` on it
unconditionally, then assemble the civilization dict. -/
def makeCiv (x y : ℤ) (rate : ℚ) (jit : ℕ → ℤ × ℤ) (color : Color) :
    Except String Civ :=
  let territory := generateIrregularShape x y jit
  match ConvexHull territory with
  | Except.error e => Except.error e
  | Except.ok border =>
    Except.ok
      { center := (x, y), population := 1000, tech := 1,
        territory := territory, border := border, color := color,
        border_color := none, growth_rate := rate }

/-- C4 (code_bug evaluation): on an all-water heightmap (every height 0,
below the land threshold 0.3) the sampling loop of
`initialize_civilizations` never exits, for every random stream and every
number of iterations — the source has no attempt bound and no
`PlacementExhausted`. -/
theorem placement_loop_never_exits_on_water
    (rand : ℕ → Coord) (k fuel : ℕ) :
    placeCivLoop (fun _ => 0) rand k fuel = none := by
  induction fuel generalizing k with
  | zero => rfl
  | succ n ih =>
    simp only [placeCivLoop]
    rw [if_neg (by norm_num)]
    exact ih (k + 1)

/-- C7 (code_bug evaluation): a civilization spawned at center `(0, 0)`
whose 20 jitter draws are all `(-10, -10)` gets a territory of 20 copies
of `(0, 0)` (all clamped to the corner) — fewer than 3 distinct points —
and `initialize_civilizations` raises `QhullError` instead of treating
the border as empty. -/
theorem degenerate_territory_raises :
    makeCiv 0 0 (1/20) (fun _ => (-10, -10)) (0, 0, 0) =
      Except.error "QhullError" := by
  decide

/-! ## Meteor strikes (`create_meteor_strike` / `revert_meteor_strike`,
lines 127–152) -/

/-- The meteor-strike dict returned by `create_meteor_strike` (line 142):
spawn year, center, radius and the snapshot `affected_area` of
`(x, y, original_biome)` triples. -/
structure Meteor where
  year : ℕ
  center : Coord
  radius : ℤ
  affected_area : List (ℤ × ℤ × Color)
deriving DecidableEq

/-- Python `range(a, b)` over integers. -/
def intRange (a b : ℤ) : List ℤ :=
  (List.range (b - a).toNat).map (fun i => a + Int.ofNat i)

/-- The cells visited by `create_meteor_strike`'s double loop
(lines 132–134): `y in range(max(0, cy-radius), min(HEIGHT, cy+radius))`,
`x in range(max(0, cx-radius), min(WIDTH, cx+radius))`, keeping cells
inside the circle `(x-cx)² + (y-cy)² ≤ radius²`, in visit order. -/
def meteorCells (cx cy radius : ℤ) : List Coord :=
  (intRange (max 0 (cy - radius)) (min HEIGHT (cy + radius))).flatMap (fun y =>
    (intRange (max 0 (cx - radius)) (min WIDTH (cx + radius))).filterMap (fun x =>
      if (x - cx)^2 + (y - cy)^2 ≤ radius^2 then some (x, y) else none))

/-- The per-cell civilization check of `create_meteor_strike`
(line 139): is any border point of `civ` within Chebyshev distance 1 of
the affected cell `p`? -/
def nearBorder (civ : Civ) (p : Coord) : Bool :=
  civ.border.any (fun t => decide (|p.1 - t.1| ≤ 1) && decide (|p.2 - t.2| ≤ 1))

/-- Line 140: `civ["population"] *= 0.5` — applied each time the per-cell
check fires. -/
def damageCiv (p : Coord) (civ : Civ) : Civ :=
  if nearBorder civ p then { civ with population := civ.population * (1/2) } else civ

/-- Body of `create_meteor_strike`'s inner loop for one affected cell
(lines 135–140): snapshot the current biome of the cell, paint it red,
then halve every civilization whose border is near the cell. -/
def impactStep (st : (Coord → Color) × List Civ × List (ℤ × ℤ × Color)) (p : Coord) :
    (Coord → Color) × List Civ × List (ℤ × ℤ × Color) :=
  (Function.update st.1 p ((1 : ℚ), (0 : ℚ), (0 : ℚ)),
   st.2.1.map (damageCiv p),
   st.2.2 ++ [(p.1, p.2, st.1 p)])

/-- `create_meteor_strike(biome_map, civilizations, year)` (lines 128–143).
The random draws (`random.random()` gate roll, `cx`, `cy`, `radius`) are
explicit parameters.  Returns the updated biome map, the updated
civilizations and the new strike dict (`none` when no strike spawns). -/
def createMeteorStrike (biome : Coord → Color) (civs : List Civ) (year : ℕ)
    (roll : ℚ) (cx cy radius : ℤ) :
    (Coord → Color) × List Civ × Option Meteor :=
  if year % 20 = 0 ∧ roll < 3/10 then
    (((meteorCells cx cy radius).foldl impactStep (biome, civs, [])).1,
     ((meteorCells cx cy radius).foldl impactStep (biome, civs, [])).2.1,
     some ⟨year, (cx, cy), radius,
       ((meteorCells cx cy radius).foldl impactStep (biome, civs, [])).2.2⟩)
  else (biome, civs, none)

/-- `revert_meteor_strike(biome_map, meteor_strike, year)` (lines 146–152).
Years are naturals (the simulation counts `year = 0, 1, 2, …`); for
`year < m.year` the truncated difference is `0 < METEOR_REVERT_TIME`,
which agrees with Python's negative difference being below the
threshold. -/
def revertMeteorStrike (biome : Coord → Color) (ms : Option Meteor) (year : ℕ) :
    (Coord → Color) × Option Meteor :=
  match ms with
  | some m =>
    if year - m.year ≥ METEOR_REVERT_TIME then
      (m.affected_area.foldl (fun b e => Function.update b (e.1, e.2.1) e.2.2) biome, none)
    else (biome, some m)
  | none => (biome, none)

/-- Lines 185–186 of `update_civilizations`:
`meteor_strike = create_meteor_strike(...) or meteor_strike` followed by
`meteor_strike = revert_meteor_strike(...)`.  A freshly spawned strike
replaces whatever strike was tracked before. -/
def meteorPhase (biome : Coord → Color) (civs : List Civ) (ms : Option Meteor)
    (year : ℕ) (roll : ℚ) (cx cy radius : ℤ) :
    (Coord → Color) × List Civ × Option Meteor :=
  let r := createMeteorStrike biome civs year roll cx cy radius
  let ms1 := match r.2.2 with | some e => some e | none => ms
  let r2 := revertMeteorStrike r.1 ms1 year
  (r2.1, r.2.1, r2.2)

lemma damageCiv_border (p : Coord) (c : Civ) : (damageCiv p c).border = c.border := by
  unfold damageCiv; split <;> rfl

lemma damageCiv_pop (p : Coord) (c : Civ) :
    (damageCiv p c).population =
      c.population * (if nearBorder c p then (1/2 : ℚ) else 1) := by
  unfold damageCiv; split_ifs with h <;> simp

lemma nearBorder_damageCiv (p q : Coord) (c : Civ) :
    nearBorder (damageCiv p c) q = nearBorder c q := by
  unfold nearBorder; rw [damageCiv_border]

/-- The civilizations component of the impact fold only depends on the
cells, not on the biome or the snapshot accumulator. -/
lemma impact_fold_civs (cells : List Coord) :
    ∀ (b : Coord → Color) (cs : List Civ) (a : List (ℤ × ℤ × Color)),
      (cells.foldl impactStep (b, cs, a)).2.1 =
        cells.foldl (fun l p => l.map (damageCiv p)) cs := by
  induction cells with
  | nil => intro b cs a; rfl
  | cons p rest ih =>
    intro b cs a
    simp only [List.foldl_cons]
    exact ih _ _ _

lemma getD_map_damage (cs : List Civ) (p : Coord) (k : ℕ) (hk : k < cs.length) :
    (cs.map (damageCiv p)).getD k default = damageCiv p (cs.getD k default) := by
  rw [List.getD_eq_getElem?_getD, List.getD_eq_getElem?_getD, List.getElem?_map,
    List.getElem?_eq_getElem hk]
  rfl

/-- Across the whole impact loop, the k-th civilization's population is
multiplied by (1/2) once per affected cell near its border. -/
lemma fold_damage_pop (cells : List Coord) :
    ∀ (cs : List Civ) (k : ℕ), k < cs.length →
      ((cells.foldl (fun l p => l.map (damageCiv p)) cs).getD k default).population =
        (cs.getD k default).population *
          (1/2 : ℚ) ^ (cells.countP (fun p => nearBorder (cs.getD k default) p)) := by
  induction cells with
  | nil => intro cs k hk; simp
  | cons p rest ih =>
    intro cs k hk
    have hlen : k < (cs.map (damageCiv p)).length := by simpa using hk
    have h1 := ih (cs.map (damageCiv p)) k hlen
    simp only [List.foldl_cons]
    rw [h1, getD_map_damage cs p k hk, damageCiv_pop]
    simp only [nearBorder_damageCiv]
    rw [List.countP_cons]
    by_cases hq : nearBorder (cs.getD k default) p
    · simp only [hq, if_pos, pow_succ]
      ring
    · simp only [hq, if_neg, mul_one]
      simp [hq]

/-- C2 (amended): when a strike spawns, each civilization's population is
multiplied by 1/2 once for *every* affected cell within Chebyshev
distance 1 of one of its border points (the territory is not consulted),
all at spawn time. -/
theorem meteor_penalty_per_affected_cell
    (b : Coord → Color) (cs : List Civ) (year : ℕ) (roll : ℚ) (cx cy radius : ℤ)
    (k : ℕ) (hgate : year % 20 = 0 ∧ roll < 3/10) (hk : k < cs.length) :
    ((createMeteorStrike b cs year roll cx cy radius).2.1.getD k default).population =
      (cs.getD k default).population *
        (1/2 : ℚ) ^ ((meteorCells cx cy radius).countP
          (fun p => nearBorder (cs.getD k default) p)) := by
  unfold createMeteorStrike
  rw [if_pos hgate]
  show (((meteorCells cx cy radius).foldl impactStep (b, cs, [])).2.1.getD k
      default).population = _
  rw [impact_fold_civs]
  exact fold_damage_pop _ cs k hk

/-- The civilization used in the C2 counterexample and witness: its
border is the single point (10, 10). -/
def meteorCexCiv : Civ :=
  { center := (10, 10), population := 1000, tech := 1, territory := [(10, 10)],
    border := [(10, 10)], color := (0, 0, 0), border_color := none, growth_rate := 1/20 }

/-- C2 counterexample: a strike at center (10,10), radius 2, spawning in
year 0, has 9 affected cells within Chebyshev distance 1 of the border
point (10,10) of `meteorCexCiv`; the civilization's population 1000 is
multiplied by (1/2)^9 = 1/512 in that single spawn — not halved exactly
once as the claim states. -/
theorem meteor_penalty_not_single_halving :
    ((createMeteorStrike (fun _ => (0, 2/5, 1/10)) [meteorCexCiv] 0 0 10 10 2).2.1.getD 0
        default).population = 1000 * (1/2 : ℚ)^9 ∧
    (1000 * (1/2 : ℚ)^9) ≠ 1000 * (1/2) := by
  constructor
  · unfold createMeteorStrike
    rw [if_pos (by norm_num)]
    show ((((meteorCells 10 10 2).foldl impactStep
        ((fun _ => (0, 2/5, 1/10)), [meteorCexCiv], [])).2.1).getD 0 default).population = _
    rw [impact_fold_civs, fold_damage_pop _ [meteorCexCiv] 0 (by norm_num)]
    have hc : (meteorCells 10 10 2).countP
        (fun p => nearBorder ([meteorCexCiv].getD 0 default) p) = 9 := by decide
    rw [hc]
    simp [meteorCexCiv]
  · norm_num

/-- Witness for `meteor_penalty_per_affected_cell` on the concrete strike
of the counterexample scenario. -/
theorem meteor_penalty_per_affected_cell_witness :
    (0 % 20 = 0 ∧ (0 : ℚ) < 3/10) ∧
    ((createMeteorStrike (fun _ => (0, 2/5, 1/10)) [meteorCexCiv] 0 0 10 10 2).2.1.getD 0
        default).population =
      (([meteorCexCiv].getD 0 default).population *
        (1/2 : ℚ) ^ ((meteorCells 10 10 2).countP
          (fun p => nearBorder ([meteorCexCiv].getD 0 default) p))) :=
  ⟨⟨by decide, by norm_num⟩,
   meteor_penalty_per_affected_cell (fun _ => (0, 2/5, 1/10)) [meteorCexCiv] 0 0 10 10 2 0
     ⟨by decide, by norm_num⟩ (by decide)⟩

/-! ## Meteor revert timing (C3) -/

/-- Cells never written by the restore loop keep their value. -/
lemma restoreFold_untouched (entries : List (ℤ × ℤ × Color)) :
    ∀ (b : Coord → Color) (p : Coord), (∀ e ∈ entries, ((e.1, e.2.1) : Coord) ≠ p) →
      entries.foldl (fun b e => Function.update b (e.1, e.2.1) e.2.2) b p = b p := by
  induction entries with
  | nil => intro b p _; rfl
  | cons x rest ih =>
    intro b p h
    simp only [List.foldl_cons]
    rw [ih _ p (fun e he => h e (List.mem_cons_of_mem x he))]
    exact Function.update_noteq
      (fun hc => (h x (List.mem_cons_self x rest)) hc.symm) _ _

/-- When the snapshotted coordinates are pairwise distinct, the restore
loop (lines 148–149) writes every snapshotted cell back to its saved
label. -/
lemma restoreFold_mem (entries : List (ℤ × ℤ × Color)) :
    ∀ (b : Coord → Color),
      (entries.map (fun e => ((e.1, e.2.1) : Coord))).Nodup →
      ∀ e ∈ entries,
        entries.foldl (fun b e => Function.update b (e.1, e.2.1) e.2.2) b (e.1, e.2.1)
          = e.2.2 := by
  induction entries with
  | nil => intro b _ e he; cases he
  | cons x rest ih =>
    intro b hnd e he
    simp only [List.map_cons, List.nodup_cons] at hnd
    simp only [List.foldl_cons]
    rcases List.mem_cons.mp he with rfl | hmem
    · rw [restoreFold_untouched rest _ _ ?_]
      · exact Function.update_same _ _ _
      · intro e' he' hc
        exact hnd.1 (by rw [← hc]; exact List.mem_map_of_mem _ he')
    · exact ih _ hnd.2 e hmem

lemma intRange_nodup (a b : ℤ) : (intRange a b).Nodup := by
  unfold intRange
  refine List.Nodup.map_on ?_ (List.nodup_range _)
  intro x _ y _ hxy
  have hxy' : a + (x : ℤ) = a + (y : ℤ) := hxy
  omega

/-- Membership in one row of the affected-cell scan fixes the second
coordinate. -/
lemma meteorRow_snd (cx cy radius y : ℤ) (p : Coord)
    (hp : p ∈ (intRange (max 0 (cx - radius)) (min WIDTH (cx + radius))).filterMap
      (fun x => if (x - cx)^2 + (y - cy)^2 ≤ radius^2 then some ((x : ℤ), y) else none)) :
    p.2 = y := by
  rcases List.mem_filterMap.mp hp with ⟨x, _, hx⟩
  by_cases h : (x - cx)^2 + (y - cy)^2 ≤ radius^2
  · rw [if_pos h] at hx; cases hx; rfl
  · rw [if_neg h] at hx; cases hx

/-- The affected-cell list visits each grid cell at most once. -/
lemma meteorCells_nodup (cx cy radius : ℤ) : (meteorCells cx cy radius).Nodup := by
  unfold meteorCells
  rw [List.nodup_flatMap]
  constructor
  · intro y _
    refine List.Nodup.filterMap ?_ (intRange_nodup _ _)
    intro a a' b hb hb'
    by_cases h : (a - cx)^2 + (y - cy)^2 ≤ radius^2
    · rw [if_pos h] at hb
      by_cases h' : (a' - cx)^2 + (y - cy)^2 ≤ radius^2
      · rw [if_pos h'] at hb'
        cases hb; cases hb'; rfl
      · rw [if_neg h'] at hb'; cases hb'
    · rw [if_neg h] at hb; cases hb
  · refine (intRange_nodup _ _).imp ?_
    intro y y' hne p hp hp'
    exact hne ((meteorRow_snd cx cy radius y p hp) ▸ (meteorRow_snd cx cy radius y' p hp'))

/-- The snapshot built by the impact loop records, for each affected cell
in visit order, the cell's biome value before the strike. -/
lemma impact_fold_area (cells : List Coord) :
    ∀ (b b0 : Coord → Color) (cs : List Civ) (a : List (ℤ × ℤ × Color)),
      cells.Nodup → (∀ p ∈ cells, b p = b0 p) →
      (cells.foldl impactStep (b, cs, a)).2.2 =
        a ++ cells.map (fun p => (p.1, p.2, b0 p)) := by
  induction cells with
  | nil => intro b b0 cs a _ _; simp
  | cons p rest ih =>
    intro b b0 cs a hnd hagree
    simp only [List.foldl_cons, List.map_cons]
    have hstep : impactStep (b, cs, a) p =
        (Function.update b p ((1 : ℚ), (0 : ℚ), (0 : ℚ)), cs.map (damageCiv p),
         a ++ [(p.1, p.2, b p)]) := rfl
    rw [hstep, ih _ b0 _ _ (List.nodup_cons.mp hnd).2 ?_]
    · rw [hagree p (List.mem_cons_self _ _)]
      simp
    · intro q hq
      have hqp : q ≠ p := fun hc =>
        (List.nodup_cons.mp hnd).1 (by rw [← hc]; exact hq)
      rw [Function.update_noteq hqp _ _]
      exact hagree q (List.mem_cons_of_mem _ hq)

/-- Under the spawn gate, `create_meteor_strike` returns the strike whose
snapshot is exactly the affected cells paired with their pre-impact
labels. -/
lemma createMeteorStrike_event (b : Coord → Color) (cs : List Civ) (year : ℕ)
    (roll : ℚ) (cx cy radius : ℤ) (hgate : year % 20 = 0 ∧ roll < 3/10) :
    (createMeteorStrike b cs year roll cx cy radius).2.2 =
      some ⟨year, (cx, cy), radius,
        (meteorCells cx cy radius).map (fun p => (p.1, p.2, b p))⟩ := by
  unfold createMeteorStrike
  rw [if_pos hgate]
  show Option.some (Meteor.mk year (cx, cy) radius
      (((meteorCells cx cy radius).foldl impactStep (b, cs, [])).2.2)) = _
  rw [impact_fold_area _ b b cs [] (meteorCells_nodup cx cy radius) (fun _ _ => rfl)]
  simp

/-- `revert_meteor_strike` on a tracked strike: restore and clear once
`year - spawn_year ≥ METEOR_REVERT_TIME`, otherwise leave everything
alone. -/
lemma revertMeteorStrike_some (b : Coord → Color) (m : Meteor) (y : ℕ) :
    revertMeteorStrike b (some m) y =
      if y - m.year ≥ METEOR_REVERT_TIME then
        (m.affected_area.foldl (fun b e => Function.update b (e.1, e.2.1) e.2.2) b, none)
      else (b, some m) := rfl

/-- C3 (amended): for a strike spawned at year `s`, as long as no newer
strike has replaced it, the revert check leaves the world untouched at
every tick with `y - s < METEOR_REVERT_TIME`, and at any tick with
`y - s ≥ METEOR_REVERT_TIME` it restores every affected cell to its
pre-impact label and clears the event state. -/
theorem meteor_revert_exact_timing
    (b : Coord → Color) (cs : List Civ) (s : ℕ) (roll : ℚ) (cx cy radius : ℤ)
    (hgate : s % 20 = 0 ∧ roll < 3/10) (y : ℕ) :
    (y - s < METEOR_REVERT_TIME →
      revertMeteorStrike (createMeteorStrike b cs s roll cx cy radius).1
          (createMeteorStrike b cs s roll cx cy radius).2.2 y
        = ((createMeteorStrike b cs s roll cx cy radius).1,
           (createMeteorStrike b cs s roll cx cy radius).2.2)) ∧
    (y - s ≥ METEOR_REVERT_TIME →
      (revertMeteorStrike (createMeteorStrike b cs s roll cx cy radius).1
          (createMeteorStrike b cs s roll cx cy radius).2.2 y).2 = none ∧
      ∀ p ∈ meteorCells cx cy radius,
        (revertMeteorStrike (createMeteorStrike b cs s roll cx cy radius).1
            (createMeteorStrike b cs s roll cx cy radius).2.2 y).1 p = b p) := by
  have hev := createMeteorStrike_event b cs s roll cx cy radius hgate
  constructor
  · intro hy
    rw [hev, revertMeteorStrike_some]
    rw [if_neg (not_le.mpr hy)]
  · intro hy
    rw [hev, revertMeteorStrike_some]
    rw [if_pos hy]
    refine ⟨rfl, ?_⟩
    intro p hp
    have hnd : (((meteorCells cx cy radius).map (fun p => (p.1, p.2, b p))).map
        (fun e => ((e.1, e.2.1) : Coord))).Nodup := by
      rw [List.map_map]
      have : ((fun e => ((e.1, e.2.1) : Coord)) ∘ (fun p : Coord => (p.1, p.2, b p)))
          = id := by
        funext q; rfl
      rw [this, List.map_id]
      exact meteorCells_nodup cx cy radius
    have hmem : ((p.1, p.2, b p) : ℤ × ℤ × Color)
        ∈ (meteorCells cx cy radius).map (fun p => (p.1, p.2, b p)) :=
      List.mem_map_of_mem _ hp
    have := restoreFold_mem _ (createMeteorStrike b cs s roll cx cy radius).1 hnd
      (p.1, p.2, b p) hmem
    simpa using this

/-- Witness for `meteor_revert_exact_timing`: a strike at (10,10) with
radius 2 spawned in year 0 over the all-black biome is untouched by the
revert check at year 5, and at year 20 is restored (checked at cell
(10,10)) with the event state cleared. -/
theorem meteor_revert_exact_timing_witness :
    ((5 : ℕ) - 0 < METEOR_REVERT_TIME ∧
      revertMeteorStrike
          (createMeteorStrike (fun _ => ((0 : ℚ), (0 : ℚ), (0 : ℚ))) [] 0 0 10 10 2).1
          (createMeteorStrike (fun _ => ((0 : ℚ), (0 : ℚ), (0 : ℚ))) [] 0 0 10 10 2).2.2 5
        = ((createMeteorStrike (fun _ => ((0 : ℚ), (0 : ℚ), (0 : ℚ))) [] 0 0 10 10 2).1,
           (createMeteorStrike (fun _ => ((0 : ℚ), (0 : ℚ), (0 : ℚ))) [] 0 0 10 10 2).2.2)) ∧
    ((20 : ℕ) - 0 ≥ METEOR_REVERT_TIME ∧
      (revertMeteorStrike
          (createMeteorStrike (fun _ => ((0 : ℚ), (0 : ℚ), (0 : ℚ))) [] 0 0 10 10 2).1
          (createMeteorStrike (fun _ => ((0 : ℚ), (0 : ℚ), (0 : ℚ))) [] 0 0 10 10 2).2.2 20).2
        = none ∧
      (revertMeteorStrike
          (createMeteorStrike (fun _ => ((0 : ℚ), (0 : ℚ), (0 : ℚ))) [] 0 0 10 10 2).1
          (createMeteorStrike (fun _ => ((0 : ℚ), (0 : ℚ), (0 : ℚ))) [] 0 0 10 10 2).2.2 20).1
        (10, 10) = ((0 : ℚ), (0 : ℚ), (0 : ℚ))) := by
  have h5 := (meteor_revert_exact_timing (fun _ => ((0 : ℚ), (0 : ℚ), (0 : ℚ))) [] 0 0 10 10 2
    ⟨rfl, by norm_num⟩ 5).1 (by decide)
  have h20 := (meteor_revert_exact_timing (fun _ => ((0 : ℚ), (0 : ℚ), (0 : ℚ))) [] 0 0 10 10 2
    ⟨rfl, by norm_num⟩ 20).2 (by decide)
  exact ⟨⟨by decide, h5⟩, ⟨by decide, h20.1, h20.2 (10, 10) (by decide)⟩⟩

/-! ### The superseding execution (C3 counterexample)

Strike A spawns at year 0 at (10,10); strike B spawns at year 20 at
(100,100), and `meteor_strike = create_meteor_strike(...) or meteor_strike`
(line 185) drops the tracking of A before its revert could run.  A's
painted cells are never restored. -/

/-- Biome untouched by the impact loop at cells outside the visited set. -/
lemma impact_fold_biome_not_mem (cells : List Coord) :
    ∀ (b : Coord → Color) (cs : List Civ) (a : List (ℤ × ℤ × Color)) (p : Coord),
      p ∉ cells → (cells.foldl impactStep (b, cs, a)).1 p = b p := by
  induction cells with
  | nil => intro b cs a p _; rfl
  | cons q rest ih =>
    intro b cs a p hp
    simp only [List.foldl_cons]
    have hstep : impactStep (b, cs, a) q =
        (Function.update b q ((1 : ℚ), (0 : ℚ), (0 : ℚ)), cs.map (damageCiv q),
         a ++ [(q.1, q.2, b q)]) := rfl
    rw [hstep, ih _ _ _ p (fun h => hp (List.mem_cons_of_mem _ h))]
    exact Function.update_noteq
      (fun hc => hp (by rw [hc]; exact List.mem_cons_self q rest)) _ _

/-- Every visited cell is painted with the impact color. -/
lemma impact_fold_biome_mem (cells : List Coord) :
    ∀ (b : Coord → Color) (cs : List Civ) (a : List (ℤ × ℤ × Color)) (p : Coord),
      p ∈ cells →
        (cells.foldl impactStep (b, cs, a)).1 p = ((1 : ℚ), (0 : ℚ), (0 : ℚ)) := by
  induction cells with
  | nil => intro b cs a p hp; cases hp
  | cons q rest ih =>
    intro b cs a p hp
    simp only [List.foldl_cons]
    by_cases hr : p ∈ rest
    · exact ih _ _ _ p hr
    · have hpq : p = q := by
        rcases List.mem_cons.mp hp with h | h
        · exact h
        · exact absurd h hr
      subst hpq
      have hstep : impactStep (b, cs, a) p =
          (Function.update b p ((1 : ℚ), (0 : ℚ), (0 : ℚ)), cs.map (damageCiv p),
           a ++ [(p.1, p.2, b p)]) := rfl
      rw [hstep, impact_fold_biome_not_mem rest _ _ _ p hr]
      exact Function.update_same _ _ _

lemma fold_damage_nil (cells : List Coord) :
    cells.foldl (fun l p => l.map (damageCiv p)) ([] : List Civ) = [] := by
  induction cells with
  | nil => rfl
  | cons p rest ih => simpa using ih

/-- Unfolding of `meteorPhase` (lines 185–186). -/
lemma meteorPhase_eq (b : Coord → Color) (cs : List Civ) (ms : Option Meteor)
    (y : ℕ) (roll : ℚ) (cx cy radius : ℤ) :
    meteorPhase b cs ms y roll cx cy radius =
      ((revertMeteorStrike (createMeteorStrike b cs y roll cx cy radius).1
          (match (createMeteorStrike b cs y roll cx cy radius).2.2 with
           | some e => some e
           | none => ms) y).1,
       (createMeteorStrike b cs y roll cx cy radius).2.1,
       (revertMeteorStrike (createMeteorStrike b cs y roll cx cy radius).1
          (match (createMeteorStrike b cs y roll cx cy radius).2.2 with
           | some e => some e
           | none => ms) y).2) := rfl

/-- On a tick where the spawn gate fails and the tracked strike is not yet
due, the meteor phase is a no-op. -/
lemma meteorPhase_noop (b : Coord → Color) (cs : List Civ) (m : Meteor) (y : ℕ)
    (roll : ℚ) (cx cy radius : ℤ) (hy : ¬ y % 20 = 0)
    (hm : y - m.year < METEOR_REVERT_TIME) :
    meteorPhase b cs (some m) y roll cx cy radius = (b, cs, some m) := by
  rw [meteorPhase_eq]
  have hcr : createMeteorStrike b cs y roll cx cy radius = (b, cs, none) := by
    unfold createMeteorStrike
    rw [if_neg (fun hc => hy hc.1)]
  rw [hcr]
  show ((revertMeteorStrike b (some m) y).1, cs, (revertMeteorStrike b (some m) y).2) = _
  rw [revertMeteorStrike_some, if_neg (not_le.mpr hm)]

/-- Tick-indexed random draws of the counterexample execution: the spawn
roll passes (0 < 0.3) in years 0 and 20 and fails (1 ≥ 0.3) in every
other spawn-check year; strike A is centered at (10,10), strike B at
(100,100), both of radius 2. -/
def supersedeRoll (y : ℕ) : ℚ := if y = 0 ∨ y = 20 then 0 else 1

def supersedeCenter (y : ℕ) : Coord := if y < 20 then (10, 10) else (100, 100)

/-- One tick of the meteor subsystem in the counterexample execution. -/
def supersedeStep (st : (Coord → Color) × List Civ × Option Meteor) (y : ℕ) :
    (Coord → Color) × List Civ × Option Meteor :=
  meteorPhase st.1 st.2.1 st.2.2 y (supersedeRoll y) (supersedeCenter y).1
    (supersedeCenter y).2 2

/-- The counterexample execution: the meteor phases of years 0, …, n-1,
starting from the all-black biome with no civilizations and no strike. -/
def supersedeRun (n : ℕ) : (Coord → Color) × List Civ × Option Meteor :=
  (List.range n).foldl supersedeStep ((fun _ => ((0 : ℚ), (0 : ℚ), (0 : ℚ))), [], none)

/-- Biome after strike A's impact loop. -/
def biomeA : Coord → Color :=
  ((meteorCells 10 10 2).foldl impactStep
    ((fun _ => ((0 : ℚ), (0 : ℚ), (0 : ℚ))), [], [])).1

/-- Snapshot taken by strike A. -/
def areaA : List (ℤ × ℤ × Color) :=
  ((meteorCells 10 10 2).foldl impactStep
    ((fun _ => ((0 : ℚ), (0 : ℚ), (0 : ℚ))), [], [])).2.2

def eventA : Meteor := ⟨0, (10, 10), 2, areaA⟩

/-- Biome after strike B's impact loop (on top of strike A's paint). -/
def biomeB : Coord → Color :=
  ((meteorCells 100 100 2).foldl impactStep (biomeA, [], [])).1

/-- Snapshot taken by strike B. -/
def areaB : List (ℤ × ℤ × Color) :=
  ((meteorCells 100 100 2).foldl impactStep (biomeA, [], [])).2.2

def eventB : Meteor := ⟨20, (100, 100), 2, areaB⟩

lemma supersedeRun_succ (n : ℕ) :
    supersedeRun (n + 1) = supersedeStep (supersedeRun n) n := by
  unfold supersedeRun
  rw [List.range_succ, List.foldl_append, List.foldl_cons, List.foldl_nil]

lemma supersedeRun_one : supersedeRun 1 = (biomeA, [], some eventA) := by
  rw [supersedeRun_succ]
  show supersedeStep ((fun _ => ((0 : ℚ), (0 : ℚ), (0 : ℚ))), [], none) 0 = _
  unfold supersedeStep
  rw [meteorPhase_eq]
  have hcr : createMeteorStrike (fun _ => ((0 : ℚ), (0 : ℚ), (0 : ℚ))) [] 0
      (supersedeRoll 0) (supersedeCenter 0).1 (supersedeCenter 0).2 2
      = (biomeA, [], some eventA) := by
    unfold createMeteorStrike
    rw [if_pos ⟨rfl, by norm_num [supersedeRoll]⟩]
    have hh : ((meteorCells (supersedeCenter 0).1 (supersedeCenter 0).2 2).foldl impactStep
        ((fun _ => ((0 : ℚ), (0 : ℚ), (0 : ℚ))), [], [])).2.1 = [] := by
      rw [impact_fold_civs, fold_damage_nil]
    rw [hh]
    rfl
  rw [hcr]
  rfl

lemma supersedeRun_steady :
    ∀ n, 1 ≤ n → n ≤ 20 → supersedeRun n = (biomeA, [], some eventA) := by
  intro n h1 h2
  induction n with
  | zero => omega
  | succ k ih =>
    by_cases hk : k = 0
    · subst hk
      exact supersedeRun_one
    · have hs := ih (by omega) (by omega)
      rw [supersedeRun_succ, hs]
      exact meteorPhase_noop _ _ _ _ _ _ _ _ (by omega)
        (by show k - eventA.year < METEOR_REVERT_TIME; show k - 0 < 20; omega)

lemma supersedeRun_21 : supersedeRun 21 = (biomeB, [], some eventB) := by
  rw [supersedeRun_succ, supersedeRun_steady 20 (by omega) (by omega)]
  unfold supersedeStep
  rw [meteorPhase_eq]
  have hcr : createMeteorStrike biomeA [] 20 (supersedeRoll 20) (supersedeCenter 20).1
      (supersedeCenter 20).2 2 = (biomeB, [], some eventB) := by
    unfold createMeteorStrike
    rw [if_pos ⟨rfl, by norm_num [supersedeRoll]⟩]
    have hh : ((meteorCells (supersedeCenter 20).1 (supersedeCenter 20).2 2).foldl impactStep
        (biomeA, [], [])).2.1 = [] := by
      rw [impact_fold_civs, fold_damage_nil]
    rw [hh]
    rfl
  rw [hcr]
  rfl

lemma supersedeRun_steady2 :
    ∀ n, 21 ≤ n → n ≤ 40 → supersedeRun n = (biomeB, [], some eventB) := by
  intro n h1 h2
  induction n with
  | zero => omega
  | succ k ih =>
    by_cases hk : k = 20
    · subst hk
      exact supersedeRun_21
    · have hs := ih (by omega) (by omega)
      rw [supersedeRun_succ, hs]
      exact meteorPhase_noop _ _ _ _ _ _ _ _ (by omega)
        (by show k - eventB.year < METEOR_REVERT_TIME; show k - 20 < 20; omega)

/-- Biome at the end of the counterexample execution: strike B's snapshot
restored on top of `biomeB`. -/
def finalBiome : Coord → Color :=
  areaB.foldl (fun b e => Function.update b (e.1, e.2.1) e.2.2) biomeB

lemma supersedeRun_41 :
    supersedeRun 41 = (finalBiome, [], none) := by
  rw [supersedeRun_succ, supersedeRun_steady2 40 (by omega) (by omega)]
  unfold supersedeStep
  rw [meteorPhase_eq]
  have hcr : createMeteorStrike biomeB [] 40 (supersedeRoll 40) (supersedeCenter 40).1
      (supersedeCenter 40).2 2 = (biomeB, [], none) := by
    unfold createMeteorStrike
    refine if_neg ?_
    intro hc
    have h40 : supersedeRoll 40 = 1 := rfl
    rw [h40] at hc
    norm_num at hc
  rw [hcr]
  rfl

/-- C3 counterexample: in the execution `supersedeRun`, strike A spawns at
year 0 painting cell (10,10); strike B spawns at year 20 and replaces the
tracking of A (line 185) before A's revert fires.  At year 41 — more than
`REVERT_DELAY` ticks after A's spawn — the event state is cleared, yet
cell (10,10) still carries the impact color rather than its snapshotted
pre-impact label (0,0,0). -/
theorem meteor_superseded_cell_never_reverted :
    (supersedeRun 41).2.2 = none ∧
    (supersedeRun 41).1 (10, 10) = ((1 : ℚ), (0 : ℚ), (0 : ℚ)) ∧
    ((1 : ℚ), (0 : ℚ), (0 : ℚ)) ≠ ((0 : ℚ), (0 : ℚ), (0 : ℚ)) := by
  rw [supersedeRun_41]
  refine ⟨rfl, ?_, by norm_num [Prod.ext_iff]⟩
  have hA : areaB = (meteorCells 100 100 2).map (fun p => (p.1, p.2, biomeA p)) := by
    unfold areaB
    rw [impact_fold_area _ biomeA biomeA [] [] (meteorCells_nodup _ _ _) (fun _ _ => rfl)]
    simp
  have h1 : finalBiome (10, 10) = biomeB (10, 10) := by
    unfold finalBiome
    rw [hA]
    apply restoreFold_untouched
    intro e he hc
    rcases List.mem_map.mp he with ⟨p, hp, rfl⟩
    have hpe : p = ((10 : ℤ), (10 : ℤ)) := by
      have : ((p.1, p.2) : Coord) = ((10 : ℤ), (10 : ℤ)) := hc
      simpa using this
    rw [hpe] at hp
    revert hp
    decide
  have h2 : biomeB (10, 10) = biomeA (10, 10) := by
    unfold biomeB
    apply impact_fold_biome_not_mem
    decide
  have h3 : biomeA (10, 10) = ((1 : ℚ), (0 : ℚ), (0 : ℚ)) := by
    unfold biomeA
    apply impact_fold_biome_mem
    decide
  have hb1 : ((finalBiome, ([] : List Civ), (none : Option Meteor)).1) = finalBiome := rfl
  rw [hb1]
  exact h1.trans (h2.trans h3)

/-! ## Growth (`update_civilizations` per-civilization body, lines 156–182) -/

/-- Lines 156–179 for one civilization: pick the effective growth rate
(the reduced `SLOW_GROWTH_RATE` above the threshold, the civilization's
own sampled rate otherwise), update the population multiplicatively, clamp
it at `MAX_POPULATION`, then — when the clamped population exceeds
`len(territory) * CITIZENS_PER_DOT` — grow the territory by jittering
randomly chosen existing points (`pick k` picks the index, `jit k` the
offset pair drawn by `randint(-1, 1)`), keeping only points that land on
land, and recompute the hull when the extended territory has at least 3
points.  `ConvexHull` may raise (modelled by `Except.error`). -/
def growNewPoints (hm : Coord → ℚ) (c1 : Civ) (pick : ℕ → ℕ)
    (jit : ℕ → ℤ × ℤ) : List Coord :=
  (List.range (⌊c1.population / CITIZENS_PER_DOT⌋ - (c1.territory.length : ℤ)).toNat).filterMap
    (fun k =>
      let p := c1.territory.getD (pick k % c1.territory.length) (0, 0)
      let nx := max 0 (min (WIDTH - 1) (p.1 + (jit k).1))
      let ny := max 0 (min (HEIGHT - 1) (p.2 + (jit k).2))
      if hm (nx, ny) ≥ 3/10 then some (nx, ny) else none)

/-- The territory-expansion part of the growth step (lines 165–179),
applied to the civilization `c1` whose population has already been
updated and clamped: when the population exceeds
`len(territory) * CITIZENS_PER_DOT`, append the accepted jittered points
and recompute the hull when the extended territory has at least 3
points (`ConvexHull` may raise). -/
def growExpand (hm : Coord → ℚ) (c1 : Civ) (pick : ℕ → ℕ)
    (jit : ℕ → ℤ × ℤ) : Except String Civ :=
  if c1.population > (c1.territory.length : ℚ) * CITIZENS_PER_DOT then
    if (c1.territory ++ growNewPoints hm c1 pick jit).length ≥ 3 then
      match ConvexHull (c1.territory ++ growNewPoints hm c1 pick jit) with
      | Except.error e => Except.error e
      | Except.ok verts =>
        Except.ok { c1 with
          territory := (c1.territory ++ growNewPoints hm c1 pick jit),
          border := verts }
    else Except.ok { c1 with territory := c1.territory ++ growNewPoints hm c1 pick jit }
  else Except.ok c1

def growCiv (hm : Coord → ℚ) (c : Civ) (pick : ℕ → ℕ) (jit : ℕ → ℤ × ℤ) :
    Except String Civ :=
  growExpand hm
    { c with population := min (c.population *
        (1 + (if c.population > SLOW_GROWTH_THRESHOLD then SLOW_GROWTH_RATE
              else c.growth_rate))) MAX_POPULATION }
    pick jit

/-! ## Border conflicts (`check_borders`, lines 91–109) -/

/-- The index pairs `(i, j)` with `i < j` visited by the double loop
`for i, civ1 in enumerate(...): for j, civ2 in enumerate(...)` with the
`i >= j` pairs skipped, in visit order. -/
def pairIdx (n : ℕ) : List (ℕ × ℕ) :=
  (List.range n).flatMap (fun i =>
    (List.range n).filterMap (fun j => if i < j then some (i, j) else none))

/-- Line 98: some border point of one civilization within Chebyshev
distance 1 of some border point of the other. -/
def adjacentB (b1 b2 : List Coord) : Bool :=
  b1.any (fun p1 => b2.any (fun p2 =>
    decide (|p1.1 - p2.1| ≤ 1) && decide (|p1.2 - p2.2| ≤ 1)))

/-- Scan state: the civilization list (mutated in place by the source),
the indices appended to `to_remove`, and the unconsumed random rolls. -/
structure ScanState where
  civs : List Civ
  toRemove : List ℕ
  rolls : List ℚ
deriving DecidableEq

/-- The merge itself (lines 102–107) once the winner/loser indices `wl`
are fixed: the winner at `wl.1` absorbs the loser's territory and its
hull is recomputed (`ConvexHull` unguarded — may raise); the loser's
index is appended to `to_remove`.  `rolls` still holds the winner-pick
roll at its head, hence the `rolls.tail` in the result. -/
def scanMergeWith (civs : List Civ) (toRemove : List ℕ) (rolls : List ℚ)
    (wl : ℕ × ℕ) : Except String ScanState :=
  match ConvexHull ((civs.getD wl.1 default).territory ++
      (civs.getD wl.2 default).territory) with
  | Except.error e => Except.error e
  | Except.ok verts =>
    Except.ok ⟨civs.set wl.1
        { civs.getD wl.1 default with
          territory := ((civs.getD wl.1 default).territory ++
            (civs.getD wl.2 default).territory),
          border := verts },
      toRemove ++ [wl.2], rolls.tail⟩

/-- The merge roll (line 101: probability 0.05) and the winner pick
(line 102: `civ1` wins when the second roll is below 0.5), after the
adjacency test succeeded; `rolls` is the unconsumed roll stream. -/
def scanMerge (civs : List Civ) (toRemove : List ℕ) (rolls : List ℚ)
    (ij : ℕ × ℕ) : Except String ScanState :=
  if rolls.headD 1 < 1/20 then
    scanMergeWith civs toRemove rolls.tail
      (if rolls.tail.headD 1 < 1/2 then (ij.1, ij.2) else (ij.2, ij.1))
  else Except.ok ⟨civs, toRemove, rolls.tail⟩

/-- Body of the double loop of `check_borders` for the pair `(i, j)`
(lines 97–107): on border adjacency both civilizations' `border_color`
fields are set to `"red"` and the merge roll is taken; otherwise nothing
happens and no roll is consumed. -/
def scanStep (st : ScanState) (ij : ℕ × ℕ) : Except String ScanState :=
  if adjacentB (st.civs.getD ij.1 default).border (st.civs.getD ij.2 default).border then
    scanMerge
      ((st.civs.set ij.1
          { st.civs.getD ij.1 default with border_color := some "red" }).set ij.2
        { st.civs.getD ij.2 default with border_color := some "red" })
      st.toRemove st.rolls ij
  else Except.ok st

/-- The full pairwise scan of `check_borders` (lines 92–107): the loop
runs over the live list, deferring removals to `to_remove`. -/
def scanBorders (civs : List Civ) (rolls : List ℚ) : Except String ScanState :=
  (pairIdx civs.length).foldlM scanStep ⟨civs, [], rolls⟩

/-- Python's `list.remove(x)` (line 109): removes the first element equal
to `x`, raising `ValueError` when none is present. -/
def removeFirst (cs : List Civ) (c : Civ) : Except String (List Civ) :=
  if c ∈ cs then Except.ok (cs.erase c) else Except.error "ValueError"

/-- `check_borders(civilizations)` (lines 91–109): the full pairwise scan
followed by the deferred removal pass `for civ in to_remove:
civilizations.remove(civ)`.  Returns the surviving list and the unused
rolls. -/
def checkBorders (civs : List Civ) (rolls : List ℚ) :
    Except String (List Civ × List ℚ) := do
  let st ← scanBorders civs rolls
  let final ← st.toRemove.foldlM (fun acc i => removeFirst acc (st.civs.getD i default)) st.civs
  return (final, st.rolls)

/-! ## Proximity combat (`check_proximity_and_fight`, lines 112–125) -/

/-- Line 120–121: `np.sqrt((x1-x2)**2 + (y1-y2)**2) < FIGHT_DISTANCE`.
Both sides are non-negative and `FIGHT_DISTANCE > 0`, so the comparison
is equivalent to comparing the squared distance with
`FIGHT_DISTANCE^2`, which keeps the embedding inside `ℚ`. -/
def fightsB (c1 c2 : Civ) : Bool :=
  decide ((((c1.center.1 - c2.center.1)^2 + (c1.center.2 - c2.center.2)^2 : ℤ) : ℚ)
    < FIGHT_DISTANCE^2)

/-- Line 123–124: both populations reduced by the fixed damage factor. -/
def fightScale (c : Civ) : Civ :=
  { c with population := c.population * (1 - FIGHT_DAMAGE) }

/-- `check_proximity_and_fight(civilizations)` (lines 112–125): for every
pair `i < j`, when the centers are closer than `FIGHT_DISTANCE` both
populations are multiplied by `1 - FIGHT_DAMAGE`. -/
def checkProximityAndFight (civs : List Civ) : List Civ :=
  (pairIdx civs.length).foldl (fun cs ij =>
    let c1 := cs.getD ij.1 default
    let c2 := cs.getD ij.2 default
    if fightsB c1 c2 then
      (cs.set ij.1 (fightScale c1)).set ij.2 (fightScale c2)
    else cs) civs

/-! ## One tick (`update_civilizations`, lines 155–189) and the main loop -/

/-- All random draws consumed by one tick: per-civilization expansion
choices and jitters (indexed by the civilization's position), the meteor
draws and the border-conflict rolls. -/
structure TickRand where
  pick : ℕ → ℕ → ℕ
  jit : ℕ → ℕ → ℤ × ℤ
  meteorRoll : ℚ
  meteorCx : ℤ
  meteorCy : ℤ
  meteorRadius : ℤ
  borderRolls : List ℚ

/-- `update_civilizations(civilizations, biome_map, heightmap, year,
meteor_strike)` (lines 155–189): growth for every civilization in list
order, then the meteor spawn/revert phase (lines 185–186), then
`check_borders`, then `check_proximity_and_fight`. -/
def updateCivilizations (civs : List Civ) (biome : Coord → Color) (hm : Coord → ℚ)
    (year : ℕ) (ms : Option Meteor) (R : TickRand) :
    Except String (List Civ × (Coord → Color) × Option Meteor) := do
  let grown ← civs.enum.mapM (fun kc => growCiv hm kc.2 (R.pick kc.1) (R.jit kc.1))
  let phase := meteorPhase biome grown ms year R.meteorRoll R.meteorCx R.meteorCy
    R.meteorRadius
  let afterBorders ← checkBorders phase.2.1 R.borderRolls
  let final := checkProximityAndFight afterBorders.1
  return (final, phase.1, phase.2.2)

/-- The simulation loop of `run_simulation` (lines 211–217): repeated
ticks with the year incremented after each. -/
def runTicks (hm : Coord → ℚ) (Rs : ℕ → TickRand) :
    ℕ → (List Civ × (Coord → Color) × Option Meteor) → ℕ →
      Except String (List Civ × (Coord → Color) × Option Meteor)
  | 0, st, _ => Except.ok st
  | n + 1, st, year => do
    let st' ← updateCivilizations st.1 st.2.1 hm year st.2.2 (Rs year)
    runTicks hm Rs n st' (year + 1)


/-- The expansion part of the growth step never changes the population or
the sampled growth rate. -/
lemma growExpand_population (hm : Coord → ℚ) (c1 : Civ) (pick : ℕ → ℕ)
    (jit : ℕ → ℤ × ℤ) (c' : Civ) (h : growExpand hm c1 pick jit = Except.ok c') :
    c'.population = c1.population ∧ c'.growth_rate = c1.growth_rate := by
  unfold growExpand at h
  split_ifs at h with h1 h2
  · split at h
    · exact absurd h (by simp)
    · rw [Except.ok.injEq] at h
      subst h
      exact ⟨rfl, rfl⟩
  · rw [Except.ok.injEq] at h
    subst h
    exact ⟨rfl, rfl⟩
  · rw [Except.ok.injEq] at h
    subst h
    exact ⟨rfl, rfl⟩

/-- C6: one growth step multiplies the population by `1 + r`, where `r`
is the reduced `SLOW_GROWTH_RATE` when the pre-update population exceeds
`SLOW_GROWTH_THRESHOLD` and the civilization's own sampled rate
otherwise, and clamps the result at `MAX_POPULATION` — whatever the
territory-expansion part of the step does. -/
theorem growth_step_population (hm : Coord → ℚ) (c : Civ) (pick : ℕ → ℕ)
    (jit : ℕ → ℤ × ℤ) (c' : Civ) (h : growCiv hm c pick jit = Except.ok c') :
    c'.population =
      min (c.population * (1 + (if c.population > SLOW_GROWTH_THRESHOLD
        then SLOW_GROWTH_RATE else c.growth_rate))) MAX_POPULATION := by
  unfold growCiv at h
  simpa using (growExpand_population _ _ _ _ _ h).1

/-- The concrete civilization of the C6 witness: population 100, rate
1/20, territory of 20 points. -/
def growCexCiv : Civ :=
  { center := (5, 5), population := 100, tech := 1,
    territory := List.replicate 20 (5, 5), border := [(5, 5)],
    color := (0, 0, 0), border_color := none, growth_rate := 1/20 }

/-- Witness for `growth_step_population`: the witness civilization stays
below the slow-growth threshold, so one growth step yields
`min (100 * (1 + 1/20)) MAX_POPULATION = 105`. -/
theorem growth_step_population_witness :
    ({ growCexCiv with population := 105 } : Civ).population =
      min (growCexCiv.population * (1 + (if growCexCiv.population > SLOW_GROWTH_THRESHOLD
        then SLOW_GROWTH_RATE else growCexCiv.growth_rate))) MAX_POPULATION := by
  have hmin : min (growCexCiv.population * (1 + (if growCexCiv.population >
      SLOW_GROWTH_THRESHOLD then SLOW_GROWTH_RATE else growCexCiv.growth_rate)))
      MAX_POPULATION = 105 := by
    rw [show growCexCiv.population = 100 from rfl, show growCexCiv.growth_rate = 1/20
      from rfl]
    rw [if_neg (by norm_num [SLOW_GROWTH_THRESHOLD])]
    norm_num [MAX_POPULATION, min_def]
  have h : growCiv (fun _ => 1) growCexCiv (fun _ => 0) (fun _ => (0, 0)) =
      Except.ok { growCexCiv with population := 105 } := by
    unfold growCiv
    rw [show ({ growCexCiv with population := min (growCexCiv.population *
        (1 + (if growCexCiv.population > SLOW_GROWTH_THRESHOLD then SLOW_GROWTH_RATE
        else growCexCiv.growth_rate))) MAX_POPULATION } : Civ)
        = { growCexCiv with population := 105 } from by rw [hmin]]
    unfold growExpand
    rw [if_neg (by norm_num [growCexCiv, CITIZENS_PER_DOT])]
  exact growth_step_population (fun _ => 1) growCexCiv (fun _ => 0) (fun _ => (0, 0))
    { growCexCiv with population := 105 } h

/-- C9: for a pair of civilizations, when the squared center distance is
strictly below `FIGHT_DISTANCE²` (equivalently, the Euclidean distance is
strictly below `FIGHT_DISTANCE`) both populations are multiplied by
`1 - FIGHT_DAMAGE` in the tick, and otherwise (at or above the
threshold) neither is touched by the combat path; the penalty is applied
to both parties and the proximity test is symmetric in the pair. -/
theorem combat_pair_damage (a b : Civ) :
    (checkProximityAndFight [a, b] =
      if ((((a.center.1 - b.center.1)^2 + (a.center.2 - b.center.2)^2 : ℤ) : ℚ)
          < FIGHT_DISTANCE^2)
      then [fightScale a, fightScale b] else [a, b]) ∧
    fightsB a b = fightsB b a := by
  constructor
  · unfold checkProximityAndFight
    rw [show ([a, b] : List Civ).length = 2 from rfl,
      show pairIdx 2 = [(0, 1)] from by decide]
    simp only [List.foldl_cons, List.foldl_nil]
    by_cases h : ((((a.center.1 - b.center.1)^2 + (a.center.2 - b.center.2)^2 : ℤ) : ℚ)
        < FIGHT_DISTANCE^2)
    · rw [if_pos h]
      have hb : fightsB (([a, b] : List Civ).getD 0 default)
          (([a, b] : List Civ).getD 1 default) = true := decide_eq_true h
      rw [if_pos hb]
      rfl
    · rw [if_neg h]
      have hb : ¬ fightsB (([a, b] : List Civ).getD 0 default)
          (([a, b] : List Civ).getD 1 default) = true := by
        show ¬ fightsB a b = true
        unfold fightsB
        simpa using h
      rw [if_neg hb]
  · unfold fightsB
    have he : (((a.center.1 - b.center.1)^2 + (a.center.2 - b.center.2)^2 : ℤ) : ℚ)
        = (((b.center.1 - a.center.1)^2 + (b.center.2 - a.center.2)^2 : ℤ) : ℚ) := by
      push_cast
      ring
    rw [he]

/-! ## Deferred removal (C8) -/

/-- The deferred removal pass over pairwise-distinct civilizations: when
the values to remove are pairwise distinct and all present, every
`list.remove` succeeds, each marked civilization is removed (exactly its
one occurrence), and the survivors all come from the scanned list. -/
lemma removeAll_ok (vals : List Civ) :
    ∀ (cs : List Civ), cs.Nodup → vals.Nodup → (∀ v ∈ vals, v ∈ cs) →
      ∃ out, vals.foldlM removeFirst cs = Except.ok out ∧
        (∀ v ∈ vals, v ∉ out) ∧ ∀ c ∈ out, c ∈ cs := by
  induction vals with
  | nil =>
    intro cs _ _ _
    exact ⟨cs, rfl, by simp, fun c hc => hc⟩
  | cons v rest ih =>
    intro cs hcs hnd hall
    have hv : v ∈ cs := hall v (List.mem_cons_self _ _)
    have h1 : removeFirst cs v = Except.ok (cs.erase v) := by
      unfold removeFirst
      rw [if_pos hv]
    have hrest : ∀ v' ∈ rest, v' ∈ cs.erase v := by
      intro v' hv'
      exact hcs.mem_erase_iff.mpr
        ⟨fun hc => (List.nodup_cons.mp hnd).1 (hc ▸ hv'),
         hall v' (List.mem_cons_of_mem _ hv')⟩
    obtain ⟨out, hout, hnot, hsub⟩ :=
      ih (cs.erase v) (hcs.erase v) (List.nodup_cons.mp hnd).2 hrest
    refine ⟨out, ?_, ?_, fun c hc => List.mem_of_mem_erase (hsub c hc)⟩
    · rw [List.foldlM_cons, h1]
      exact hout
    · intro v' hv'
      rcases List.mem_cons.mp hv' with rfl | hm
      · intro hc
        exact hcs.not_mem_erase (hsub v' hc)
      · exact hnot v' hm

/-- Removing by stored index is removing the value found at that index of
the post-scan list. -/
lemma foldlM_remove_indices (idx : List ℕ) (g : ℕ → Civ) :
    ∀ cs, idx.foldlM (fun acc i => removeFirst acc (g i)) cs
      = (idx.map g).foldlM removeFirst cs := by
  induction idx with
  | nil => intro cs; rfl
  | cons i rest ih =>
    intro cs
    rw [List.foldlM_cons, List.map_cons, List.foldlM_cons]
    cases hx : removeFirst cs (g i) with
    | error e => rfl
    | ok cs' =>
      show rest.foldlM (fun acc i => removeFirst acc (g i)) cs'
        = (rest.map g).foldlM removeFirst cs'
      exact ih cs'

/-- C8 (amended): `check_borders` completes the full pairwise scan before
any removal is applied; the deferred removal pass then removes, for each
recorded loser index, the first occurrence of the post-scan value at that
index.  When the post-scan list is duplicate-free and no index was
recorded twice, every removal succeeds, each merged loser is removed
exactly once and is absent from the active set at the end of the tick,
and every survivor comes from the scanned list.  (A civilization that
loses two merges in one tick is recorded twice, and the second
`list.remove` raises `ValueError` — see the counterexample.) -/
theorem borders_scan_then_remove (civs : List Civ) (rolls : List ℚ) (st : ScanState)
    (hscan : scanBorders civs rolls = Except.ok st)
    (hnd : st.civs.Nodup)
    (hvals : (st.toRemove.map (fun i => st.civs.getD i default)).Nodup)
    (hin : ∀ i ∈ st.toRemove, st.civs.getD i default ∈ st.civs) :
    ∃ final, checkBorders civs rolls = Except.ok (final, st.rolls) ∧
      (∀ i ∈ st.toRemove, st.civs.getD i default ∉ final) ∧
      ∀ c ∈ final, c ∈ st.civs := by
  obtain ⟨out, hout, hnot, hsub⟩ :=
    removeAll_ok (st.toRemove.map (fun i => st.civs.getD i default)) st.civs hnd hvals
      (by
        intro v hv
        rcases List.mem_map.mp hv with ⟨i, hi, rfl⟩
        exact hin i hi)
  refine ⟨out, ?_, ?_, hsub⟩
  · unfold checkBorders
    rw [hscan]
    show (st.toRemove.foldlM (fun acc i => removeFirst acc (st.civs.getD i default))
        st.civs) >>= (fun final => pure (final, st.rolls)) = _
    rw [foldlM_remove_indices, hout]
    rfl
  · intro i hi
    exact hnot _ (List.mem_map_of_mem _ hi)

/-- Witness scenario for C8: two adjacent triangles; rolls `[0, 0]` make
the first pair merge with `civD` the winner. -/
def civD : Civ :=
  ⟨(1, 6), 1000, 1, [(0, 5), (3, 5), (0, 8)], [(0, 5), (3, 5), (0, 8)],
    (0, 0, 0), none, 0⟩

def civE : Civ :=
  ⟨(5, 6), 1000, 1, [(4, 5), (7, 5), (4, 8)], [(4, 5), (7, 5), (4, 8)],
    (1, 1, 1), none, 0⟩

/-- `civD` after winning the merge: flagged red, territory extended by
`civE`'s, border recomputed. -/
def civD1 : Civ :=
  ⟨(1, 6), 1000, 1, [(0, 5), (3, 5), (0, 8), (4, 5), (7, 5), (4, 8)],
    [(0, 5), (7, 5), (4, 8), (0, 8)], (0, 0, 0), some "red", 0⟩

/-- `civE` after losing: only flagged red. -/
def civE1 : Civ :=
  ⟨(5, 6), 1000, 1, [(4, 5), (7, 5), (4, 8)], [(4, 5), (7, 5), (4, 8)],
    (1, 1, 1), some "red", 0⟩

lemma scanStep_DE :
    scanStep ⟨[civD, civE], [], [0, 0]⟩ (0, 1) = Except.ok ⟨[civD1, civE1], [1], []⟩ := by
  show (if adjacentB civD.border civE.border = true then
      scanMerge (([civD, civE].set 0 { civD with border_color := some "red" }).set 1
        { civE with border_color := some "red" }) [] [0, 0] (0, 1)
    else Except.ok ⟨[civD, civE], [], [0, 0]⟩) = Except.ok ⟨[civD1, civE1], [1], []⟩
  rw [if_pos (show adjacentB civD.border civE.border = true from by decide)]
  unfold scanMerge
  rw [if_pos (show (([0, 0] : List ℚ).headD 1) < 1/20 from by norm_num [List.headD])]
  rw [if_pos (show (([0, 0] : List ℚ).tail.headD 1) < 1/2 from by
    norm_num [List.headD, List.tail])]
  decide

lemma scanBorders_DE :
    scanBorders [civD, civE] [0, 0] = Except.ok ⟨[civD1, civE1], [1], []⟩ := by
  unfold scanBorders
  rw [show ([civD, civE] : List Civ).length = 2 from rfl,
    show pairIdx 2 = [(0, 1)] from by decide]
  rw [List.foldlM_cons, scanStep_DE]
  rfl

/-- Witness for `borders_scan_then_remove`: on the two-civilization merge
scenario the loser `civE1` (recorded once at index 1) is removed without
error and is absent from the surviving set. -/
theorem borders_scan_then_remove_witness :
    ∃ final, checkBorders [civD, civE] [0, 0] = Except.ok (final, ([] : List ℚ)) ∧
      (∀ i ∈ [(1 : ℕ)], (([civD1, civE1] : List Civ).getD i default) ∉ final) ∧
      ∀ c ∈ final, c ∈ ([civD1, civE1] : List Civ) := by
  have h := borders_scan_then_remove [civD, civE] [0, 0] ⟨[civD1, civE1], [1], []⟩
    scanBorders_DE (by decide) (by decide) (by decide)
  exact h

/-- Counterexample scenario for C8: three civilizations in a row; rolls
`[0, 0, 0, 1]` make `civB2` lose its merges against *both* neighbours in
the same tick, so index 1 is recorded twice in `to_remove`. -/
def civA2 : Civ :=
  ⟨(1, 6), 1000, 1, [(0, 5), (3, 5), (0, 8)], [(0, 5), (3, 5), (0, 8)],
    (0, 0, 0), none, 0⟩

def civB2 : Civ :=
  ⟨(5, 6), 1000, 1, [(4, 5), (7, 5), (4, 8)], [(4, 5), (7, 5), (4, 8)],
    (1, 1, 1), none, 0⟩

def civC2 : Civ :=
  ⟨(4, 2), 1000, 1, [(4, 4), (2, 1), (6, 1)], [(4, 4), (2, 1), (6, 1)],
    (0, 1, 0), none, 0⟩

/-- `civA2` after winning the first merge. -/
def civA2' : Civ :=
  ⟨(1, 6), 1000, 1, [(0, 5), (3, 5), (0, 8), (4, 5), (7, 5), (4, 8)],
    [(0, 5), (7, 5), (4, 8), (0, 8)], (0, 0, 0), some "red", 0⟩

/-- `civB2` after losing (twice): only flagged red. -/
def civB2' : Civ :=
  ⟨(5, 6), 1000, 1, [(4, 5), (7, 5), (4, 8)], [(4, 5), (7, 5), (4, 8)],
    (1, 1, 1), some "red", 0⟩

/-- `civC2` after winning the second merge. -/
def civC2' : Civ :=
  ⟨(4, 2), 1000, 1, [(4, 4), (2, 1), (6, 1), (4, 5), (7, 5), (4, 8)],
    [(2, 1), (6, 1), (7, 5), (4, 8)], (0, 1, 0), some "red", 0⟩

lemma scanStep_AB :
    scanStep ⟨[civA2, civB2, civC2], [], [0, 0, 0, 1]⟩ (0, 1)
      = Except.ok ⟨[civA2', civB2', civC2], [1], [0, 1]⟩ := by
  show (if adjacentB civA2.border civB2.border = true then
      scanMerge (([civA2, civB2, civC2].set 0
          { civA2 with border_color := some "red" }).set 1
        { civB2 with border_color := some "red" }) [] [0, 0, 0, 1] (0, 1)
    else Except.ok ⟨[civA2, civB2, civC2], [], [0, 0, 0, 1]⟩)
      = Except.ok ⟨[civA2', civB2', civC2], [1], [0, 1]⟩
  rw [if_pos (show adjacentB civA2.border civB2.border = true from by decide)]
  unfold scanMerge
  rw [if_pos (show (([0, 0, 0, 1] : List ℚ).headD 1) < 1/20 from by
    norm_num [List.headD])]
  rw [if_pos (show (([0, 0, 0, 1] : List ℚ).tail.headD 1) < 1/2 from by
    norm_num [List.headD, List.tail])]
  decide

lemma scanStep_AC :
    scanStep ⟨[civA2', civB2', civC2], [1], [0, 1]⟩ (0, 2)
      = Except.ok ⟨[civA2', civB2', civC2], [1], [0, 1]⟩ := by
  decide

lemma scanStep_BC :
    scanStep ⟨[civA2', civB2', civC2], [1], [0, 1]⟩ (1, 2)
      = Except.ok ⟨[civA2', civB2', civC2'], [1, 1], []⟩ := by
  show (if adjacentB civB2'.border civC2.border = true then
      scanMerge (([civA2', civB2', civC2].set 1
          { civB2' with border_color := some "red" }).set 2
        { civC2 with border_color := some "red" }) [1] [0, 1] (1, 2)
    else Except.ok ⟨[civA2', civB2', civC2], [1], [0, 1]⟩)
      = Except.ok ⟨[civA2', civB2', civC2'], [1, 1], []⟩
  rw [if_pos (show adjacentB civB2'.border civC2.border = true from by decide)]
  unfold scanMerge
  rw [if_pos (show (([0, 1] : List ℚ).headD 1) < 1/20 from by norm_num [List.headD])]
  rw [if_neg (show ¬ (([0, 1] : List ℚ).tail.headD 1) < 1/2 from by
    norm_num [List.headD, List.tail])]
  decide

lemma scanBorders_ABC :
    scanBorders [civA2, civB2, civC2] [0, 0, 0, 1]
      = Except.ok ⟨[civA2', civB2', civC2'], [1, 1], []⟩ := by
  unfold scanBorders
  rw [show ([civA2, civB2, civC2] : List Civ).length = 3 from rfl,
    show pairIdx 3 = [(0, 1), (0, 2), (1, 2)] from by decide]
  rw [List.foldlM_cons, scanStep_AB]
  show ([(0, 2), (1, 2)] : List (ℕ × ℕ)).foldlM scanStep
    ⟨[civA2', civB2', civC2], [1], [0, 1]⟩ = _
  rw [List.foldlM_cons, scanStep_AC]
  show ([(1, 2)] : List (ℕ × ℕ)).foldlM scanStep
    ⟨[civA2', civB2', civC2], [1], [0, 1]⟩ = _
  rw [List.foldlM_cons, scanStep_BC]
  rfl

/-- C8 counterexample: `civB2` loses a merge against `civA2` in pair
(0,1) and another against `civC2` in pair (1,2) of the *same* tick, so
its index is recorded twice in `to_remove`; the first `list.remove`
succeeds, the second raises `ValueError`, so the removal pass is not
"each merged loser exactly once without error". -/
theorem borders_double_loser_value_error :
    checkBorders [civA2, civB2, civC2] [0, 0, 0, 1] = Except.error "ValueError" := by
  unfold checkBorders
  rw [scanBorders_ABC]
  show ([1, 1] : List ℕ).foldlM (fun acc i =>
      removeFirst acc (([civA2', civB2', civC2'] : List Civ).getD i default))
    [civA2', civB2', civC2'] >>= (fun final => pure (final, ([] : List ℚ)))
    = Except.error "ValueError"
  rw [List.foldlM_cons,
    show removeFirst [civA2', civB2', civC2']
      (([civA2', civB2', civC2'] : List Civ).getD 1 default)
      = Except.ok [civA2', civC2'] from by decide]
  show ([1] : List ℕ).foldlM (fun acc i =>
      removeFirst acc (([civA2', civB2', civC2'] : List Civ).getD i default))
    [civA2', civC2'] >>= (fun final => pure (final, ([] : List ℚ)))
    = Except.error "ValueError"
  rw [List.foldlM_cons,
    show removeFirst [civA2', civC2']
      (([civA2', civB2', civC2'] : List Civ).getD 1 default)
      = Except.error "ValueError" from by decide]
  rfl

/-! ## The population invariant (C5) -/

/-- The invariant: population within `[0, MAX_POPULATION]` and a
non-negative sampled growth rate. -/
def PopS (c : Civ) : Prop :=
  0 ≤ c.population ∧ c.population ≤ MAX_POPULATION ∧ 0 ≤ c.growth_rate

/-- The precondition on the initial state: non-negative population and
growth rate (the initial population need not be below the cap yet). -/
def PopW (c : Civ) : Prop := 0 ≤ c.population ∧ 0 ≤ c.growth_rate

lemma popS_default : PopS default := by
  refine ⟨le_refl 0, ?_, le_refl 0⟩
  show (0 : ℚ) ≤ MAX_POPULATION
  norm_num [MAX_POPULATION]

lemma popS_getD (cs : List Civ) (i : ℕ) (h : ∀ c ∈ cs, PopS c) :
    PopS (cs.getD i default) := by
  by_cases hi : i < cs.length
  · rw [cs.getD_eq_getElem default hi]
    exact h _ (cs.getElem_mem hi)
  · rw [cs.getD_eq_default default (le_of_not_lt hi)]
    exact popS_default

/-- The growth step establishes the invariant from the precondition: the
clamp bounds the population above, and a non-negative rate keeps it
non-negative. -/
lemma growCiv_PopS (hm : Coord → ℚ) (c : Civ) (pick : ℕ → ℕ) (jit : ℕ → ℤ × ℤ)
    (c' : Civ) (hc : PopW c) (h : growCiv hm c pick jit = Except.ok c') : PopS c' := by
  have hpop := growth_step_population hm c pick jit c' h
  have hrate : c'.growth_rate = c.growth_rate := by
    unfold growCiv at h
    simpa using (growExpand_population _ _ _ _ _ h).2
  have heff : 0 ≤ (if c.population > SLOW_GROWTH_THRESHOLD then SLOW_GROWTH_RATE
      else c.growth_rate) := by
    split_ifs
    · norm_num [SLOW_GROWTH_RATE]
    · exact hc.2
  refine ⟨?_, ?_, hrate ▸ hc.2⟩
  · rw [hpop]
    refine le_min (mul_nonneg hc.1 (by linarith)) ?_
    norm_num [MAX_POPULATION]
  · rw [hpop]
    exact min_le_right _ _

lemma damageCiv_PopS (p : Coord) (c : Civ) (h : PopS c) : PopS (damageCiv p c) := by
  unfold damageCiv
  split_ifs with hn
  · refine ⟨?_, ?_, h.2.2⟩
    · show 0 ≤ c.population * (1/2)
      exact mul_nonneg h.1 (by norm_num)
    · show c.population * (1/2) ≤ MAX_POPULATION
      have h1 := h.1
      have h2 := h.2.1
      linarith
  · exact h

/-- The impact loop preserves the invariant (each hit halves the
population, which stays within the range). -/
lemma impact_civs_PopS (cells : List Coord) :
    ∀ (cs : List Civ), (∀ c ∈ cs, PopS c) →
      ∀ c' ∈ cells.foldl (fun l p => l.map (damageCiv p)) cs, PopS c' := by
  induction cells with
  | nil => intro cs h c' hc'; exact h c' hc'
  | cons p rest ih =>
    intro cs h c' hc'
    refine ih (cs.map (damageCiv p)) ?_ c' hc'
    intro x hx
    rcases List.mem_map.mp hx with ⟨y, hy, rfl⟩
    exact damageCiv_PopS p y (h y hy)

/-- The meteor phase's civilizations are those of `create_meteor_strike`. -/
lemma meteorPhase_civs (b : Coord → Color) (cs : List Civ) (ms : Option Meteor)
    (y : ℕ) (roll : ℚ) (cx cy radius : ℤ) :
    (meteorPhase b cs ms y roll cx cy radius).2.1
      = (createMeteorStrike b cs y roll cx cy radius).2.1 := rfl

lemma createMeteorStrike_PopS (b : Coord → Color) (cs : List Civ) (y : ℕ)
    (roll : ℚ) (cx cy radius : ℤ) (h : ∀ c ∈ cs, PopS c) :
    ∀ c' ∈ (createMeteorStrike b cs y roll cx cy radius).2.1, PopS c' := by
  unfold createMeteorStrike
  split_ifs with hg
  · intro c' hc'
    rw [impact_fold_civs] at hc'
    exact impact_civs_PopS _ cs h c' hc'
  · exact h

/-- Generic invariant preservation through a monadic fold over `Except`. -/
lemma foldlM_inv {α β : Type} (f : β → α → Except String β) (inv : β → Prop)
    (hstep : ∀ b a b', inv b → f b a = Except.ok b' → inv b') :
    ∀ (l : List α) (b b' : β), inv b → l.foldlM f b = Except.ok b' → inv b' := by
  intro l
  induction l with
  | nil =>
    intro b b' hb h
    have h' : (Except.ok b : Except String β) = Except.ok b' := h
    rw [Except.ok.injEq] at h'
    exact h' ▸ hb
  | cons a rest ih =>
    intro b b' hb h
    rw [List.foldlM_cons] at h
    cases hx : f b a with
    | error e =>
      rw [hx] at h
      have h' : (Except.error e : Except String β) = Except.ok b' := h
      exact absurd h' (by simp)
    | ok b1 =>
      rw [hx] at h
      exact ih b1 b' (hstep b a b1 hb hx) h

/-- Generic invariant preservation through a plain fold. -/
lemma foldl_inv {α β : Type} (f : β → α → β) (inv : β → Prop)
    (hstep : ∀ b a, inv b → inv (f b a)) :
    ∀ (l : List α) (b : β), inv b → inv (l.foldl f b) := by
  intro l
  induction l with
  | nil => intro b hb; exact hb
  | cons a rest ih => intro b hb; exact ih (f b a) (hstep b a hb)

lemma popS_set (cs : List Civ) (i : ℕ) (c : Civ) (h : ∀ x ∈ cs, PopS x)
    (hc : PopS c) : ∀ x ∈ cs.set i c, PopS x := by
  intro x hx
  rcases List.mem_or_eq_of_mem_set hx with hm | rfl
  · exact h x hm
  · exact hc

lemma popS_record_tb (w : Civ) (t bd : List Coord) (h : PopS w) :
    PopS { w with territory := t, border := bd } := ⟨h.1, h.2.1, h.2.2⟩

/-- The merge write-back preserves the invariant. -/
lemma scanMergeWith_PopS (civs : List Civ) (tr : List ℕ) (rolls : List ℚ)
    (wl : ℕ × ℕ) (st' : ScanState) (h0 : ∀ c ∈ civs, PopS c)
    (h : scanMergeWith civs tr rolls wl = Except.ok st') : ∀ c ∈ st'.civs, PopS c := by
  unfold scanMergeWith at h
  split at h
  · exact absurd h (by simp)
  · rw [Except.ok.injEq] at h
    subst h
    exact popS_set _ _ _ h0 (popS_record_tb _ _ _ (popS_getD _ _ h0))

/-- `PopS` only looks at population and growth rate, so the red flag and
territory/border updates of the scan preserve it. -/
lemma scanStep_PopS (st : ScanState) (ij : ℕ × ℕ) (st' : ScanState)
    (h0 : ∀ c ∈ st.civs, PopS c) (h : scanStep st ij = Except.ok st') :
    ∀ c ∈ st'.civs, PopS c := by
  unfold scanStep at h
  split_ifs at h with hadj
  · have hred : ∀ c ∈ ((st.civs.set ij.1
        { st.civs.getD ij.1 default with border_color := some "red" }).set ij.2
        { st.civs.getD ij.2 default with border_color := some "red" }), PopS c := by
      refine popS_set _ _ _ (popS_set _ _ _ h0 ?_) ?_
      · exact popS_getD _ _ h0
      · exact popS_getD _ _ h0
    unfold scanMerge at h
    split at h
    · exact scanMergeWith_PopS _ _ _ _ _ hred h
    · rw [Except.ok.injEq] at h
      subst h
      exact hred
  · rw [Except.ok.injEq] at h
    subst h
    exact h0

lemma removeFirst_PopS (cs : List Civ) (v : Civ) (out : List Civ)
    (h0 : ∀ c ∈ cs, PopS c) (h : removeFirst cs v = Except.ok out) :
    ∀ c ∈ out, PopS c := by
  unfold removeFirst at h
  split_ifs at h
  rw [Except.ok.injEq] at h
  subst h
  exact fun c hc => h0 c (List.erase_subset _ _ hc)

lemma fightScale_PopS (c : Civ) (h : PopS c) : PopS (fightScale c) := by
  refine ⟨?_, ?_, h.2.2⟩
  · show 0 ≤ c.population * (1 - FIGHT_DAMAGE)
    exact mul_nonneg h.1 (by norm_num [FIGHT_DAMAGE])
  · show c.population * (1 - FIGHT_DAMAGE) ≤ MAX_POPULATION
    have h1 := h.1
    have h2 := h.2.1
    rw [show (1 : ℚ) - FIGHT_DAMAGE = 9/10 from by norm_num [FIGHT_DAMAGE]]
    linarith

lemma checkProximityAndFight_PopS (cs : List Civ) (h0 : ∀ c ∈ cs, PopS c) :
    ∀ c ∈ checkProximityAndFight cs, PopS c := by
  unfold checkProximityAndFight
  refine foldl_inv _ (fun l => ∀ c ∈ l, PopS c) ?_ _ cs h0
  intro l ij hl
  show ∀ c ∈ (if fightsB (l.getD ij.1 default) (l.getD ij.2 default) = true
      then (l.set ij.1 (fightScale (l.getD ij.1 default))).set ij.2
        (fightScale (l.getD ij.2 default))
      else l), PopS c
  split_ifs
  · refine popS_set _ _ _ (popS_set _ _ _ hl ?_) ?_
    · exact fightScale_PopS _ (popS_getD _ _ hl)
    · exact fightScale_PopS _ (popS_getD _ _ hl)
  · exact hl

lemma checkBorders_PopS (cs : List Civ) (rolls : List ℚ)
    (pr : List Civ × List ℚ) (h0 : ∀ c ∈ cs, PopS c)
    (h : checkBorders cs rolls = Except.ok pr) : ∀ c ∈ pr.1, PopS c := by
  unfold checkBorders at h
  cases hs : scanBorders cs rolls with
  | error e =>
    rw [hs] at h
    have h' : (Except.error e : Except String (List Civ × List ℚ)) = Except.ok pr := h
    exact absurd h' (by simp)
  | ok st =>
    rw [hs] at h
    have hstinv : ∀ c ∈ st.civs, PopS c := by
      have := foldlM_inv scanStep (fun s => ∀ c ∈ s.civs, PopS c)
        (fun b a b' hb hba => scanStep_PopS b a b' hb hba)
        (pairIdx cs.length) ⟨cs, [], rolls⟩ st h0 hs
      exact this
    have h2 : (st.toRemove.foldlM
        (fun acc i => removeFirst acc (st.civs.getD i default)) st.civs) >>=
        (fun final => pure (final, st.rolls)) = Except.ok pr := h
    cases hr : st.toRemove.foldlM
        (fun acc i => removeFirst acc (st.civs.getD i default)) st.civs with
    | error e =>
      rw [hr] at h2
      have h' : (Except.error e : Except String (List Civ × List ℚ)) = Except.ok pr := h2
      exact absurd h' (by simp)
    | ok out =>
      rw [hr] at h2
      have hout : ∀ c ∈ out, PopS c := by
        refine foldlM_inv _ (fun l => ∀ c ∈ l, PopS c) ?_ st.toRemove st.civs out
          hstinv hr
        intro b a b' hb hba
        exact removeFirst_PopS b _ b' hb hba
      have hpr : pr = (out, st.rolls) := by
        have h' : (Except.ok (out, st.rolls) : Except String (List Civ × List ℚ))
            = Except.ok pr := h2
        rw [Except.ok.injEq] at h'
        exact h'.symm
      rw [hpr]
      exact hout

lemma mapM_PopS {α : Type} (f : α → Except String Civ) :
    ∀ (l : List α), (∀ a ∈ l, ∀ c', f a = Except.ok c' → PopS c') →
      ∀ out, l.mapM f = Except.ok out → ∀ c ∈ out, PopS c := by
  intro l
  induction l with
  | nil =>
    intro _ out h c hc
    have h' : (Except.ok [] : Except String (List Civ)) = Except.ok out := h
    rw [Except.ok.injEq] at h'
    subst h'
    cases hc
  | cons a rest ih =>
    intro hall out h c hc
    rw [List.mapM_cons] at h
    cases hx : f a with
    | error e =>
      rw [hx] at h
      have h' : (Except.error e : Except String (List Civ)) = Except.ok out := h
      exact absurd h' (by simp)
    | ok b =>
      rw [hx] at h
      have h2 : (rest.mapM f) >>= (fun bs => pure (b :: bs)) = Except.ok out := h
      cases hy : rest.mapM f with
      | error e =>
        rw [hy] at h2
        have h' : (Except.error e : Except String (List Civ)) = Except.ok out := h2
        exact absurd h' (by simp)
      | ok bs =>
        rw [hy] at h2
        have h' : (Except.ok (b :: bs) : Except String (List Civ)) = Except.ok out := h2
        rw [Except.ok.injEq] at h'
        subst h'
        rcases List.mem_cons.mp hc with rfl | hm
        · exact hall a (List.mem_cons_self _ _) c hx
        · exact ih (fun x hx' => hall x (List.mem_cons_of_mem _ hx')) bs hy c hm

/-- One full tick establishes the invariant from the precondition: the
growth clamp bounds every population, and every later phase of the tick
only multiplies populations by factors in `[0, 1]`, removes
civilizations, or leaves populations alone. -/
lemma updateCivilizations_PopS (cs : List Civ) (biome : Coord → Color)
    (hm : Coord → ℚ) (year : ℕ) (ms : Option Meteor) (R : TickRand)
    (out : List Civ × (Coord → Color) × Option Meteor)
    (h0 : ∀ c ∈ cs, PopW c)
    (h : updateCivilizations cs biome hm year ms R = Except.ok out) :
    ∀ c ∈ out.1, PopS c := by
  unfold updateCivilizations at h
  cases hg : cs.enum.mapM (fun kc => growCiv hm kc.2 (R.pick kc.1) (R.jit kc.1)) with
  | error e =>
    rw [hg] at h
    have h' : (Except.error e : Except String (List Civ × (Coord → Color) ×
        Option Meteor)) = Except.ok out := h
    exact absurd h' (by simp)
  | ok grown =>
    rw [hg] at h
    have hgrown : ∀ c ∈ grown, PopS c := by
      refine mapM_PopS _ cs.enum ?_ grown hg
      intro kc hkc c' hok
      refine growCiv_PopS hm kc.2 _ _ c' ?_ hok
      have hmem : kc.2 ∈ cs := by
        have he := List.enum_map_snd cs
        rw [← he]
        exact List.mem_map_of_mem _ hkc
      exact h0 _ hmem
    have hphase : ∀ c ∈ (meteorPhase biome grown ms year R.meteorRoll R.meteorCx
        R.meteorCy R.meteorRadius).2.1, PopS c := by
      rw [meteorPhase_civs]
      exact createMeteorStrike_PopS _ _ _ _ _ _ _ hgrown
    have h2 : (checkBorders (meteorPhase biome grown ms year R.meteorRoll R.meteorCx
        R.meteorCy R.meteorRadius).2.1 R.borderRolls) >>= (fun ab =>
        pure (checkProximityAndFight ab.1,
          (meteorPhase biome grown ms year R.meteorRoll R.meteorCx R.meteorCy
            R.meteorRadius).1,
          (meteorPhase biome grown ms year R.meteorRoll R.meteorCx R.meteorCy
            R.meteorRadius).2.2)) = Except.ok out := h
    cases hb : checkBorders (meteorPhase biome grown ms year R.meteorRoll R.meteorCx
        R.meteorCy R.meteorRadius).2.1 R.borderRolls with
    | error e =>
      rw [hb] at h2
      have h' : (Except.error e : Except String (List Civ × (Coord → Color) ×
          Option Meteor)) = Except.ok out := h2
      exact absurd h' (by simp)
    | ok ab =>
      rw [hb] at h2
      have h' : (Except.ok (checkProximityAndFight ab.1,
          (meteorPhase biome grown ms year R.meteorRoll R.meteorCx R.meteorCy
            R.meteorRadius).1,
          (meteorPhase biome grown ms year R.meteorRoll R.meteorCx R.meteorCy
            R.meteorRadius).2.2) : Except String (List Civ × (Coord → Color) ×
          Option Meteor)) = Except.ok out := h2
      rw [Except.ok.injEq] at h'
      subst h'
      exact checkProximityAndFight_PopS ab.1 (checkBorders_PopS _ _ ab hphase hb)

lemma runTicks_PopS (hm : Coord → ℚ) (Rs : ℕ → TickRand) :
    ∀ (n : ℕ) (st : List Civ × (Coord → Color) × Option Meteor) (year : ℕ)
      (res : List Civ × (Coord → Color) × Option Meteor),
      (∀ c ∈ st.1, PopS c) → runTicks hm Rs n st year = Except.ok res →
      ∀ c ∈ res.1, PopS c := by
  intro n
  induction n with
  | zero =>
    intro st year res hst h
    have h' : (Except.ok st : Except String (List Civ × (Coord → Color) ×
        Option Meteor)) = Except.ok res := h
    rw [Except.ok.injEq] at h'
    subst h'
    exact hst
  | succ k ih =>
    intro st year res hst h
    have h2 : (updateCivilizations st.1 st.2.1 hm year st.2.2 (Rs year)) >>=
        (fun st' => runTicks hm Rs k st' (year + 1)) = Except.ok res := h
    cases hu : updateCivilizations st.1 st.2.1 hm year st.2.2 (Rs year) with
    | error e =>
      rw [hu] at h2
      have h' : (Except.error e : Except String (List Civ × (Coord → Color) ×
          Option Meteor)) = Except.ok res := h2
      exact absurd h' (by simp)
    | ok st' =>
      rw [hu] at h2
      have h3 : runTicks hm Rs k st' (year + 1) = Except.ok res := h2
      refine ih st' (year + 1) res ?_ h3
      exact updateCivilizations_PopS st.1 st.2.1 hm year st.2.2 (Rs year) st'
        (fun c hc => ⟨(hst c hc).1, (hst c hc).2.2⟩) hu

/-- C5: starting from civilizations with non-negative populations and
growth rates, after any positive number of full ticks (growth with clamp,
meteor penalties, border merges/removals and proximity combat) every
surviving civilization's population lies in `[0, MAX_POPULATION]` — in
every execution in which the run does not abort with an exception. -/
theorem population_within_cap (hm : Coord → ℚ) (Rs : ℕ → TickRand) (n : ℕ)
    (civs : List Civ) (biome : Coord → Color) (ms : Option Meteor) (year : ℕ)
    (res : List Civ × (Coord → Color) × Option Meteor)
    (h0 : ∀ c ∈ civs, 0 ≤ c.population ∧ 0 ≤ c.growth_rate)
    (h : runTicks hm Rs (n + 1) (civs, biome, ms) year = Except.ok res) :
    ∀ c ∈ res.1, 0 ≤ c.population ∧ c.population ≤ MAX_POPULATION := by
  have h2 : (updateCivilizations civs biome hm year ms (Rs year)) >>=
      (fun st' => runTicks hm Rs n st' (year + 1)) = Except.ok res := h
  cases hu : updateCivilizations civs biome hm year ms (Rs year) with
  | error e =>
    rw [hu] at h2
    have h' : (Except.error e : Except String (List Civ × (Coord → Color) ×
        Option Meteor)) = Except.ok res := h2
    exact absurd h' (by simp)
  | ok st' =>
    rw [hu] at h2
    have h3 : runTicks hm Rs n st' (year + 1) = Except.ok res := h2
    have hS : ∀ c ∈ st'.1, PopS c :=
      updateCivilizations_PopS civs biome hm year ms (Rs year) st' h0 hu
    have hres := runTicks_PopS hm Rs n st' (year + 1) res hS h3
    exact fun c hc => ⟨(hres c hc).1, (hres c hc).2.1⟩

/-- The civilization of the C5 witness run: population 0, growth rate 0. -/
def tickCexCiv : Civ :=
  ⟨(1, 6), 0, 1, [(0, 5), (3, 5), (0, 8)], [(0, 5), (3, 5), (0, 8)], (0, 0, 0), none, 0⟩

/-- Random draws of the C5 witness tick: the meteor roll 1 fails the
spawn gate and there are no border rolls. -/
def tickCexRand : TickRand :=
  ⟨fun _ _ => 0, fun _ _ => (0, 0), 1, 0, 0, 0, []⟩

lemma growCiv_tickCex :
    growCiv (fun _ => 1) tickCexCiv (tickCexRand.pick 0) (tickCexRand.jit 0)
      = Except.ok tickCexCiv := by
  unfold growCiv
  rw [show ({ tickCexCiv with population := min (tickCexCiv.population *
      (1 + (if tickCexCiv.population > SLOW_GROWTH_THRESHOLD then SLOW_GROWTH_RATE
        else tickCexCiv.growth_rate))) MAX_POPULATION } : Civ) = tickCexCiv from by
    rw [show min (tickCexCiv.population * (1 + (if tickCexCiv.population >
        SLOW_GROWTH_THRESHOLD then SLOW_GROWTH_RATE else tickCexCiv.growth_rate)))
        MAX_POPULATION = 0 from by
      rw [show tickCexCiv.population = 0 from rfl,
        show tickCexCiv.growth_rate = 0 from rfl]
      rw [if_neg (by norm_num [SLOW_GROWTH_THRESHOLD])]
      norm_num [MAX_POPULATION, min_def]]
    rfl]
  unfold growExpand
  rw [if_neg (by norm_num [tickCexCiv, CITIZENS_PER_DOT])]

lemma mapM_tickCex :
    ([tickCexCiv] : List Civ).enum.mapM (fun kc => growCiv (fun _ => 1) kc.2
      (tickCexRand.pick kc.1) (tickCexRand.jit kc.1)) = Except.ok [tickCexCiv] := by
  rw [show ([tickCexCiv] : List Civ).enum = [(0, tickCexCiv)] from rfl, List.mapM_cons]
  show (growCiv (fun _ => 1) tickCexCiv (tickCexRand.pick 0) (tickCexRand.jit 0)) >>=
      (fun b => (([] : List (ℕ × Civ)).mapM (fun kc => growCiv (fun _ => 1) kc.2
        (tickCexRand.pick kc.1) (tickCexRand.jit kc.1))) >>=
        (fun bs => pure (b :: bs))) = Except.ok [tickCexCiv]
  rw [growCiv_tickCex]
  rfl

lemma meteorPhase_tickCex :
    meteorPhase (fun _ => ((0 : ℚ), (0 : ℚ), (0 : ℚ))) [tickCexCiv] none 0
      tickCexRand.meteorRoll tickCexRand.meteorCx tickCexRand.meteorCy
      tickCexRand.meteorRadius
    = ((fun _ => ((0 : ℚ), (0 : ℚ), (0 : ℚ))), [tickCexCiv], none) := by
  rw [meteorPhase_eq]
  rw [show createMeteorStrike (fun _ => ((0 : ℚ), (0 : ℚ), (0 : ℚ))) [tickCexCiv] 0
      tickCexRand.meteorRoll tickCexRand.meteorCx tickCexRand.meteorCy
      tickCexRand.meteorRadius
      = ((fun _ => ((0 : ℚ), (0 : ℚ), (0 : ℚ))), [tickCexCiv], none) from by
    unfold createMeteorStrike
    rw [if_neg ?_]
    intro hc
    have h1 : (1 : ℚ) < 3/10 := hc.2
    norm_num at h1]
  rfl

lemma update_tickCex :
    updateCivilizations [tickCexCiv] (fun _ => ((0 : ℚ), (0 : ℚ), (0 : ℚ)))
      (fun _ => 1) 0 none tickCexRand
    = Except.ok ([tickCexCiv], (fun _ => ((0 : ℚ), (0 : ℚ), (0 : ℚ))), none) := by
  unfold updateCivilizations
  rw [mapM_tickCex]
  show (checkBorders (meteorPhase (fun _ => ((0 : ℚ), (0 : ℚ), (0 : ℚ))) [tickCexCiv]
      none 0 tickCexRand.meteorRoll tickCexRand.meteorCx tickCexRand.meteorCy
      tickCexRand.meteorRadius).2.1 tickCexRand.borderRolls) >>= (fun ab =>
      pure (checkProximityAndFight ab.1,
        (meteorPhase (fun _ => ((0 : ℚ), (0 : ℚ), (0 : ℚ))) [tickCexCiv] none 0
          tickCexRand.meteorRoll tickCexRand.meteorCx tickCexRand.meteorCy
          tickCexRand.meteorRadius).1,
        (meteorPhase (fun _ => ((0 : ℚ), (0 : ℚ), (0 : ℚ))) [tickCexCiv] none 0
          tickCexRand.meteorRoll tickCexRand.meteorCx tickCexRand.meteorCy
          tickCexRand.meteorRadius).2.2))
    = Except.ok ([tickCexCiv], (fun _ => ((0 : ℚ), (0 : ℚ), (0 : ℚ))), none)
  rw [meteorPhase_tickCex]
  rfl

lemma runTicks_tickCex :
    runTicks (fun _ => 1) (fun _ => tickCexRand) 1
      ([tickCexCiv], (fun _ => ((0 : ℚ), (0 : ℚ), (0 : ℚ))), none) 0
    = Except.ok ([tickCexCiv], (fun _ => ((0 : ℚ), (0 : ℚ), (0 : ℚ))), none) := by
  show (updateCivilizations [tickCexCiv] (fun _ => ((0 : ℚ), (0 : ℚ), (0 : ℚ)))
      (fun _ => 1) 0 none tickCexRand) >>= (fun st' =>
      runTicks (fun _ => 1) (fun _ => tickCexRand) 0 st' 1)
    = Except.ok ([tickCexCiv], (fun _ => ((0 : ℚ), (0 : ℚ), (0 : ℚ))), none)
  rw [update_tickCex]
  rfl

/-- Witness for `population_within_cap`: one full tick of a single
civilization with population 0 and rate 0 succeeds and keeps the
population within `[0, MAX_POPULATION]`. -/
theorem population_within_cap_witness :
    0 ≤ tickCexCiv.population ∧ tickCexCiv.population ≤ MAX_POPULATION :=
  population_within_cap (fun _ => 1) (fun _ => tickCexRand) 0 [tickCexCiv]
    (fun _ => ((0 : ℚ), (0 : ℚ), (0 : ℚ))) none 0
    ([tickCexCiv], (fun _ => ((0 : ℚ), (0 : ℚ), (0 : ℚ))), none)
    (by
      intro c hc
      rw [List.mem_singleton] at hc
      subst hc
      exact ⟨le_refl 0, le_refl 0⟩)
    runTicks_tickCex tickCexCiv (List.mem_singleton_self _)
